import Mathlib

/-!
# nRF905 driver (`src/src/lib/nRF905.c`): shallow embedding and properties

The C translation unit is embedded as pure Lean functions over an explicit
driver state.  Machine integers are natural numbers with explicit reduction
modulo `2 ^ 16` / `2 ^ 32` where the C type truncates.
-/

namespace NRF905

/-! ## Address derivation (`getTxAddrFromChnPwr`, `getRxAddrFromChnPwr`) -/

/-- Source: `getTxAddrFromChnPwr(unsigned int unNRF905CHN_PWR)`, returning
`(w | (w << 16)) & 0xA33D59AA` in 32-bit unsigned arithmetic. -/
def getTxAddrFromChnPwr (unNRF905CHN_PWR : Nat) : Nat :=
  let w := unNRF905CHN_PWR % 2 ^ 32
  (w ||| ((w <<< 16) % 2 ^ 32)) &&& 0xA33D59AA

/-- Source: `getRxAddrFromChnPwr(unsigned short int unNRF905CHN_PWR)`, returning
`(w | (w << 16)) & 0x5CA259AA`.  The parameter is a 16-bit value; the shift is
taken in 32 bits (the wrapped value, as compiled), and the mask keeps the
result below `2 ^ 31`. -/
def getRxAddrFromChnPwr (unNRF905CHN_PWR : Nat) : Nat :=
  let w := unNRF905CHN_PWR % 2 ^ 16
  (w ||| ((w <<< 16) % 2 ^ 32)) &&& 0x5CA259AA

/-! ## Constants and command macros -/

def NRF905_TX_EN_PIN : Nat := 0
def NRF905_TRX_CE_PIN : Nat := 2
def NRF905_PWR_UP_PIN : Nat := 3
def NRF905_DR_PIN : Nat := 4

def NRF905_TX_ADDR_LEN : Nat := 4
def NRF905_RX_ADDR_LEN : Nat := 4
def NRF905_RX_PAYLOAD_LEN : Nat := 32
def NRF905_TX_PAYLOAD_LEN : Nat := NRF905_RX_PAYLOAD_LEN
def TEST_NRF905_TX_ADDR : Nat := 0x87654321
def TEST_NRF905_RX_ADDR : Nat := 0x12345678

def NRF905_RX_ADDRESS_IN_CR : Nat := 5
def NRF905_CMD_WC_MASK : Nat := 0x0F
/-- Source: `NRF905_CMD_WC(i) = (i) & NRF905_CMD_WC_MASK`, write configuration register. -/
def NRF905_CMD_WC (unWR_CFG_ByteIndex : Nat) : Nat := unWR_CFG_ByteIndex &&& NRF905_CMD_WC_MASK
def NRF905_CMD_RC_MASK : Nat := 0x0F
/-- Source: `NRF905_CMD_RC(i) = ((i) & NRF905_CMD_RC_MASK) | 0x10`, read configuration register. -/
def NRF905_CMD_RC (unRD_CFG_ByteIndex : Nat) : Nat :=
  (unRD_CFG_ByteIndex &&& NRF905_CMD_RC_MASK) ||| 0x10
def NRF905_CMD_WTP : Nat := 0x20
def NRF905_CMD_RTP : Nat := 0x21
def NRF905_CMD_WTA : Nat := 0x22
def NRF905_CMD_RTA : Nat := 0x23
def NRF905_CMD_RRP : Nat := 0x24
/-- Source: `NRF905_CMD_CC(unPwrChn) = (unPwrChn) | 0x8000` (defined, never used in the file). -/
def NRF905_CMD_CC (unPwrChn : Nat) : Nat := unPwrChn ||| 0x8000
def CH_MSK_IN_CC_REG : Nat := 0x01FF
/-- Source: `NRF905_DR_IN_STATUS_REG(status) = (status) & (0x01 << 5)`; only evaluated on a
non-negative status. -/
def NRF905_DR_IN_STATUS_REG (status : Nat) : Nat := status &&& (0x01 <<< 5)
/-- Source: `GET_CHN_PWR_FAST_CONFIG(x, y) = (x) | ((y) << 10)` (in `int`, no overflow for a
16-bit `x` and an 8-bit `y`). -/
def GET_CHN_PWR_FAST_CONFIG (x y : Nat) : Nat := x ||| (y <<< 10)

/-! ## Modes and the pin-level table -/

/-- The C enum `nRF905Mode_t`; its values are unsigned integers. -/
abbrev nRF905Mode_t := Nat

def NRF905_MODE_PWR_DOWN : nRF905Mode_t := 0
def NRF905_MODE_STD_BY : nRF905Mode_t := 1
def NRF905_MODE_BURST_RX : nRF905Mode_t := 2
def NRF905_MODE_BURST_TX : nRF905Mode_t := 3
def NRF905_MODE_MAX : nRF905Mode_t := 4

/-- Output level of a pin (`LOW` / `HIGH` of wiringPi). -/
inductive PinLevel where
  | LOW
  | HIGH
deriving DecidableEq, Repr

/-- Source: `nRF905PinLevelInMode_t`. -/
structure nRF905PinLevelInMode_t where
  nPWR_UP_PIN : PinLevel
  nTRX_CE_PIN : PinLevel
  nTX_EN_PIN : PinLevel
deriving DecidableEq, Repr

open PinLevel in
/-- Source: `unNRF905MODE_PIN_LEVEL[]`, pin status according to each nRF905 mode. -/
def unNRF905MODE_PIN_LEVEL : List nRF905PinLevelInMode_t :=
  [ ⟨LOW, LOW, LOW⟩,
    ⟨HIGH, LOW, LOW⟩,
    ⟨HIGH, HIGH, LOW⟩,
    ⟨HIGH, HIGH, HIGH⟩ ]

/-! ## Driver state and environment -/

/-- Source: `nRF905Status_t`. Counters and addresses are `unsigned int` (32 bits),
`unNRF905CHN_PWR` is `unsigned short` (16 bits). -/
structure nRF905Status_t where
  unNRF905RecvFrameCNT : Nat
  unNRF905SendFrameCNT : Nat
  unNRF905HoppingCNT : Nat
  unNRF905TxAddr : Nat
  unNRF905RxAddr : Nat
  unNRF905CHN_PWR : Nat
  tNRF905CurrentMode : nRF905Mode_t
deriving DecidableEq, Repr

/-- A call the driver makes into the hardware library, in program order. -/
inductive HwEvent where
  | digitalWrite (pin : Nat) (level : PinLevel)
  | wiringPiSPIDataRW (channel : Int) (data : List Nat)
  | pinModeOutput (pin : Nat)
  | pinModeInput (pin : Nat)
  | wiringPiSPISetup (channel : Int) (speed : Int)
  | wiringPiISR (pin : Nat)
  | close (fd : Int)
deriving DecidableEq, Repr

/-- A line written through `NRF905_LOG_ERR` / `NRF905_LOG_INFO`. -/
inductive LogEntry where
  | err (msg : String)
  | info (msg : String)
deriving DecidableEq, Repr

/-- All file-scope and function-static variables of `nRF905.c`, together with the
record of hardware calls (`hw`) and of log lines (`log`) made so far. -/
structure Driver where
  tNRF905Status : nRF905Status_t
  nRF905SPI_CHN : Int
  nRF905PipeFd : Int × Int
  /-- The memory `pRoamingTable` points to (empty for the initial null pointer). -/
  pRoamingTable : List Nat
  nRoamingTableLen : Int
  unNRF905Power : Nat
  /-- Function-static `nHoppingPoint` of `roamNRF905`. -/
  nHoppingPoint : Int
  /-- Function-static `unReadBuff[32]` of `dataReadyHandler`. -/
  unReadBuff : List Nat
  /-- Function-static `nStatusReg` of `dataReadyHandler`. -/
  nStatusReg : Int
  hw : List HwEvent
  log : List LogEntry
deriving DecidableEq, Repr

/-- What one `wiringPiSPIDataRW` call gives back: its return value and the bytes
clocked in from the device (byte `k` overwrites byte `k` of the buffer). -/
structure SpiReply where
  result : Int
  rx : Nat → Nat

/-- The collaborators outside the translation unit. Each answer may depend on
the hardware calls made so far. -/
structure Env where
  /-- Answer of `wiringPiSPIDataRW(channel, data, len)`. -/
  spi : List HwEvent → Int → List Nat → SpiReply
  /-- Whether `malloc(size)` returns a non-null pointer. -/
  malloc : List HwEvent → Nat → Bool
  /-- Return value of `wiringPiSPISetup(channel, speed)`. -/
  spiSetup : List HwEvent → Int → Int → Int
  /-- Result of `pipe(fd)`: the two descriptors, or `none` when it fails. -/
  pipe : List HwEvent → Option (Int × Int)
  /-- Bytes the program reads without having written them: uninitialised
  automatic storage and memory past the end of a caller's buffer. -/
  memory : Nat → Nat

/-- The state at program start: `tNRF905Status = {0, 0, 0, 0, 0, NRF905_MODE_PWR_DOWN}`
(the sixth initialiser lands in `unNRF905CHN_PWR`, the mode is zero-initialised),
every other static zero-initialised. -/
def Driver.init : Driver where
  tNRF905Status := ⟨0, 0, 0, 0, 0, NRF905_MODE_PWR_DOWN, 0⟩
  nRF905SPI_CHN := 0
  nRF905PipeFd := (0, 0)
  pRoamingTable := []
  nRoamingTableLen := 0
  unNRF905Power := 0
  nHoppingPoint := 0
  unReadBuff := List.replicate 32 0
  nStatusReg := 0
  hw := []
  log := []

/-! ## Primitive effects -/

/-- Append a log line (`NRF905_LOG_ERR` / `NRF905_LOG_INFO`). -/
def logLine (e : LogEntry) (d : Driver) : Driver :=
  { d with log := d.log ++ [e] }

/-- Record a hardware call. -/
def emit (e : HwEvent) (d : Driver) : Driver :=
  { d with hw := d.hw ++ [e] }

/-- The wiringPi call `digitalWrite(pin, level)`. -/
def digitalWrite (pin : Nat) (level : PinLevel) (d : Driver) : Driver :=
  emit (HwEvent.digitalWrite pin level) d

/-- The wiringPi call `wiringPiSPIDataRW(channel, data, len)` with `len = data.length`:
returns the call's result and the buffer as the transfer leaves it. -/
def wiringPiSPIDataRW (env : Env) (channel : Int) (data : List Nat) (d : Driver) :
    Int × List Nat × Driver :=
  let reply := env.spi d.hw channel data
  (reply.result, (List.range data.length).map (fun k => reply.rx k % 256),
    emit (HwEvent.wiringPiSPIDataRW channel data) d)

/-- Read `n` bytes starting at a caller's buffer, `memcpy(dst, p, n)`: the
buffer's bytes, then whatever lies behind it. -/
def readBytes (env : Env) (p : List Nat) (n : Nat) : List Nat :=
  (List.range n).map (fun k => p.getD k (env.memory k % 256))

/-- The bytes of a 16-bit object in memory, lowest address first (little-endian target). -/
def bytes16 (v : Nat) : List Nat := [v % 256, v / 256 % 256]

/-- The bytes of a 32-bit object in memory, lowest address first (little-endian target). -/
def bytes32 (v : Nat) : List Nat :=
  [v % 256, v / 256 % 256, v / 65536 % 256, v / 16777216 % 256]

/-! ## Mode controller -/

/-- Source: `setNRF905Mode`. -/
def setNRF905Mode (tNRF905Mode : nRF905Mode_t) (d : Driver) : Int × Driver :=
  if h : tNRF905Mode ≥ NRF905_MODE_MAX then
    (-1, logLine (LogEntry.err "nRF905 Mode error.") d)
  else if tNRF905Mode = d.tNRF905Status.tNRF905CurrentMode then
    (0, logLine (LogEntry.info "nRF905 Mode not changed, no need to set pin.") d)
  else
    let lv := unNRF905MODE_PIN_LEVEL.get ⟨tNRF905Mode, Nat.lt_of_not_ge h⟩
    let d := digitalWrite NRF905_TX_EN_PIN lv.nTX_EN_PIN d
    let d := digitalWrite NRF905_TRX_CE_PIN lv.nTRX_CE_PIN d
    let d := digitalWrite NRF905_PWR_UP_PIN lv.nPWR_UP_PIN d
    (0, { d with tNRF905Status := { d.tNRF905Status with tNRF905CurrentMode := tNRF905Mode } })

/-! ## Command codec -/

/-- Source: `nRF905SPI_WR_CMD(unsigned char unCMD, const unsigned char *pData, int nDataLen)`. -/
def nRF905SPI_WR_CMD (env : Env) (unCMD : Nat) (pData : List Nat) (nDataLen : Int)
    (d : Driver) : Int × Driver :=
  if nDataLen > 0 then
    if env.malloc d.hw (nDataLen + 1).toNat then
      let pBuff := (unCMD % 256) :: readBytes env pData nDataLen.toNat
      let tPreMode := d.tNRF905Status.tNRF905CurrentMode
      let d := (setNRF905Mode NRF905_MODE_STD_BY d).2
      let r := wiringPiSPIDataRW env d.nRF905SPI_CHN pBuff d
      let d := (setNRF905Mode tPreMode r.2.2).2
      (r.1, d)
    else
      (-1, d)
  else
    (-1, d)

/-- Source: `readStatusReg`. -/
def readStatusReg (env : Env) (d : Driver) : Int × Driver :=
  let unStatus := NRF905_CMD_RC 1 % 256
  let tPreMode := d.tNRF905Status.tNRF905CurrentMode
  let d := (setNRF905Mode NRF905_MODE_STD_BY d).2
  let r := wiringPiSPIDataRW env d.nRF905SPI_CHN [unStatus] d
  let d := (setNRF905Mode tPreMode r.2.2).2
  if 0 = r.1 then
    (Int.ofNat (r.2.1.headD 0), d)
  else
    (-1, d)

/-- Source: `readRxPayload(unsigned char* pBuff, int nBuffLen)`. Returns the result
and the caller's buffer afterwards. Only byte 0 of the local `unReadBuff[33]` is
written before the transfer; `sizeof(unReadBuff)` is 33. -/
def readRxPayload (env : Env) (pBuff : List Nat) (nBuffLen : Int) (d : Driver) :
    Int × List Nat × Driver :=
  if nBuffLen > 0 ∧ nBuffLen < 33 then
    let unReadBuff := (NRF905_CMD_RTP % 256) ::
      (List.range nBuffLen.toNat).map (fun k => env.memory (k + 1) % 256)
    let tPreMode := d.tNRF905Status.tNRF905CurrentMode
    let d := (setNRF905Mode NRF905_MODE_STD_BY d).2
    let r := wiringPiSPIDataRW env d.nRF905SPI_CHN unReadBuff d
    let d := (setNRF905Mode tPreMode r.2.2).2
    (r.1, r.2.1.tail ++ pBuff.drop nBuffLen.toNat, d)
  else
    (-1, pBuff, d)

/-- Source: `readConfig(unsigned char unConfigAddr, unsigned char* pBuff, int nBuffLen)`. -/
def readConfig (env : Env) (unConfigAddr : Nat) (pBuff : List Nat) (nBuffLen : Int)
    (d : Driver) : Int × List Nat × Driver :=
  if nBuffLen > 0 ∧ nBuffLen < 33 then
    let unReadBuff := (NRF905_CMD_RC (unConfigAddr % 256) % 256) ::
      (List.range nBuffLen.toNat).map (fun k => env.memory (k + 1) % 256)
    let tPreMode := d.tNRF905Status.tNRF905CurrentMode
    let d := (setNRF905Mode NRF905_MODE_STD_BY d).2
    let r := wiringPiSPIDataRW env d.nRF905SPI_CHN unReadBuff d
    let d := (setNRF905Mode tPreMode r.2.2).2
    (r.1, r.2.1.tail ++ pBuff.drop nBuffLen.toNat, d)
  else
    (-1, pBuff, d)

/-- Source: `writeConfig(unsigned char unConfigAddr, const unsigned char* pBuff, int nBuffLen)`. -/
def writeConfig (env : Env) (unConfigAddr : Nat) (pBuff : List Nat) (nBuffLen : Int)
    (d : Driver) : Int × Driver :=
  nRF905SPI_WR_CMD env (NRF905_CMD_WC (unConfigAddr % 256)) pBuff nBuffLen d

/-- Source: `writeTxAddr(unsigned int unTxAddr)`. -/
def writeTxAddr (env : Env) (unTxAddr : Nat) (d : Driver) : Int × Driver :=
  nRF905SPI_WR_CMD env NRF905_CMD_WTA (bytes32 (unTxAddr % 2 ^ 32)) 4 d

/-- Source: `writeRxAddr(unsigned int unRxAddr)`. -/
def writeRxAddr (env : Env) (unRxAddr : Nat) (d : Driver) : Int × Driver :=
  writeConfig env NRF905_RX_ADDRESS_IN_CR (bytes32 (unRxAddr % 2 ^ 32)) 4 d

/-- Source: `writeTxPayload(unsigned char* pBuff, int nBuffLen)`, which hands
`NRF905_CMD_WTP` to `writeConfig` as the configuration address. -/
def writeTxPayload (env : Env) (pBuff : List Nat) (nBuffLen : Int) (d : Driver) :
    Int × Driver :=
  writeConfig env NRF905_CMD_WTP pBuff nBuffLen d

/-- Source: `writeFastConfig(unsigned short int unPA_PLL_CHN)`: the two bytes of
the parameter itself are transferred. -/
def writeFastConfig (env : Env) (unPA_PLL_CHN : Nat) (d : Driver) : Int × Driver :=
  let tPreMode := d.tNRF905Status.tNRF905CurrentMode
  let d := (setNRF905Mode NRF905_MODE_STD_BY d).2
  let r := wiringPiSPIDataRW env d.nRF905SPI_CHN (bytes16 (unPA_PLL_CHN % 2 ^ 16)) d
  let d := (setNRF905Mode tPreMode r.2.2).2
  (r.1, d)

/-- Source: `setChannelMonitorTimer`, whose body is `return 0;`. -/
def setChannelMonitorTimer : Int := 0

/-! ## Data-ready handler -/

/-- Assignment to the function-static `nStatusReg` of `dataReadyHandler`. -/
def storeStatusReg (v : Int) (d : Driver) : Driver :=
  { d with nStatusReg := v }

/-- The contents of the function-static `unReadBuff` of `dataReadyHandler` after
`readRxPayload` has copied into it. -/
def storeReadBuff (b : List Nat) (d : Driver) : Driver :=
  { d with unReadBuff := b }

/-- Source: `dataReadyHandler`. `piLock` / `piUnlock` bracket the mode test only
and have no effect in this sequential model; `printf` output is not recorded.
The counter increment and the pipe write are commented out in the source and
therefore absent here. -/
def dataReadyHandler (env : Env) (d : Driver) : Driver :=
  if NRF905_MODE_BURST_RX = d.tNRF905Status.tNRF905CurrentMode then
    let d := (setNRF905Mode NRF905_MODE_STD_BY d).2
    let s := readStatusReg env d
    let d := storeStatusReg s.1 s.2
    let d :=
      if d.nStatusReg ≥ 0 ∧ NRF905_DR_IN_STATUS_REG d.nStatusReg.toNat = 0 then
        logLine (LogEntry.err "Strange happens. DR pin set but status register not.") d
      else
        let p := readRxPayload env d.unReadBuff 32 d
        storeReadBuff p.2.1 p.2.2
    (setNRF905Mode NRF905_MODE_BURST_RX d).2
  else if NRF905_MODE_BURST_TX = d.tNRF905Status.tNRF905CurrentMode then
    (setNRF905Mode NRF905_MODE_BURST_RX d).2
  else
    logLine (LogEntry.err "Data ready pin was set but status is neither TX nor RX.") d

/-- Source: `regDR_Event`, `wiringPiISR(NRF905_DR_PIN, INT_EDGE_RISING, &dataReadyHandler)`. -/
def regDR_Event (d : Driver) : Driver :=
  emit (HwEvent.wiringPiISR NRF905_DR_PIN) d

/-- Source: `NRF905_CR_DEFAULT[]`. -/
def NRF905_CR_DEFAULT : List Nat :=
  [0x4C, 0x0C, (NRF905_RX_ADDR_LEN <<< 4) ||| NRF905_TX_ADDR_LEN,
   NRF905_RX_PAYLOAD_LEN, NRF905_TX_PAYLOAD_LEN, 0x00, 0x0C, 0x40, 0x08, 0x58]

/-- Source: `nRF905CRInitial`. -/
def nRF905CRInitial (env : Env) (d : Driver) : Int × Driver :=
  writeConfig env 0 NRF905_CR_DEFAULT NRF905_CR_DEFAULT.length d

/-! ## Roaming -/

/-- The read `pRoamingTable[nHoppingPoint]`; `none` when the index is outside
the memory the pointer refers to. -/
def readTable (table : List Nat) (index : Int) : Option Nat :=
  if 0 ≤ index then table.get? index.toNat else none

/-- The statements of `roamNRF905` between `piLock` and `piUnlock`, `chn` being
the table entry `pRoamingTable[nHoppingPoint]` just read. -/
def roamUpdate (chn : Nat) (d : Driver) : Driver :=
  let d := { d with tNRF905Status := { d.tNRF905Status with
    unNRF905CHN_PWR := GET_CHN_PWR_FAST_CONFIG chn d.unNRF905Power % 2 ^ 16 } }
  let d := { d with nHoppingPoint :=
    if d.nHoppingPoint < d.nRoamingTableLen - 1 then d.nHoppingPoint + 1 else 0 }
  let d := { d with tNRF905Status := { d.tNRF905Status with
    unNRF905HoppingCNT := (d.tNRF905Status.unNRF905HoppingCNT + 1) % 2 ^ 32 } }
  let d := { d with tNRF905Status := { d.tNRF905Status with
    unNRF905TxAddr := getTxAddrFromChnPwr d.tNRF905Status.unNRF905CHN_PWR } }
  { d with tNRF905Status := { d.tNRF905Status with
    unNRF905RxAddr := getRxAddrFromChnPwr d.tNRF905Status.unNRF905CHN_PWR } }

/-- The statements of `roamNRF905` after `piUnlock`: the three register writes
from the stored status fields, then BurstReceive. -/
def roamWrite (env : Env) (d : Driver) : Driver :=
  let d := (writeFastConfig env d.tNRF905Status.unNRF905CHN_PWR d).2
  let d := (writeTxAddr env d.tNRF905Status.unNRF905TxAddr d).2
  let d := (writeRxAddr env d.tNRF905Status.unNRF905RxAddr d).2
  (setNRF905Mode NRF905_MODE_BURST_RX d).2

/-- Source: `roamNRF905`. The result is `none` exactly when the table read is out
of bounds. -/
def roamNRF905 (env : Env) (d : Driver) : Option Driver :=
  let d := (setNRF905Mode NRF905_MODE_STD_BY d).2
  match readTable d.pRoamingTable d.nHoppingPoint with
  | none => none
  | some chn => some (roamWrite env (roamUpdate chn d))

/-- Consecutive calls of `roamNRF905`, `n` of them. -/
def roamTimes (env : Env) : Nat → Driver → Option Driver
  | 0, d => some d
  | n + 1, d => (roamNRF905 env d).bind (roamTimes env n)

/-! ## Public entry points -/

/-- Source: `nRF905Initial(int nSPI_Channel, int nSPI_Speed, unsigned char unPower)`.
`wiringPiSetup`, `piHiPri` and `usleep` leave no trace in the model. -/
def nRF905Initial (env : Env) (nSPI_Channel nSPI_Speed : Int) (unPower : Nat)
    (d : Driver) : Int × Driver :=
  let d := { d with unNRF905Power := unPower % 256 }
  let d := emit (HwEvent.pinModeOutput NRF905_TX_EN_PIN) d
  let d := emit (HwEvent.pinModeOutput NRF905_TRX_CE_PIN) d
  let d := emit (HwEvent.pinModeOutput NRF905_PWR_UP_PIN) d
  let d := emit (HwEvent.pinModeInput NRF905_DR_PIN) d
  let d := (setNRF905Mode NRF905_MODE_STD_BY d).2
  let nRF905SPI_Fd := env.spiSetup d.hw nSPI_Channel nSPI_Speed
  let d := emit (HwEvent.wiringPiSPISetup nSPI_Channel nSPI_Speed) d
  if nRF905SPI_Fd < 0 then
    (-1, logLine (LogEntry.err "nRF905 SPI initial error.") d)
  else
    let d := { d with nRF905SPI_CHN := nSPI_Channel }
    let d := (nRF905CRInitial env d).2
    (0, d)

/-- Source: `nRF905StartListen(const unsigned short int* pHoppingTable, int nTableLen)`. -/
def nRF905StartListen (env : Env) (pHoppingTable : List Nat) (nTableLen : Int)
    (d : Driver) : Int × Driver :=
  let d := if d.nRF905PipeFd.1 ≠ 0 then emit (HwEvent.close d.nRF905PipeFd.1) d else d
  let d := if d.nRF905PipeFd.2 ≠ 0 then emit (HwEvent.close d.nRF905PipeFd.2) d else d
  match env.pipe d.hw with
  | none => (-1, logLine (LogEntry.err "nRF905 pipe initial error.") d)
  | some fds =>
    let d := { d with nRF905PipeFd := fds }
    let d := { d with pRoamingTable := pHoppingTable }
    let d := { d with nRoamingTableLen := nTableLen }
    let d := (writeTxAddr env TEST_NRF905_TX_ADDR d).2
    let d := (writeRxAddr env TEST_NRF905_RX_ADDR d).2
    let d := (setNRF905Mode NRF905_MODE_BURST_RX d).2
    let d := regDR_Event d
    if setChannelMonitorTimer ≠ 0 then
      let d := logLine (LogEntry.err "error calling setitimer()") d
      let d := emit (HwEvent.close d.nRF905PipeFd.1) d
      let d := emit (HwEvent.close d.nRF905PipeFd.2) d
      (-1, d)
    else
      (0, d)

/-- Source: `setNRF905Power(unsigned char unPower)`. -/
def setNRF905Power (unPower : Nat) (d : Driver) : Driver :=
  { d with unNRF905Power := unPower % 256 }

/-- Source: `nRF905SendFrame(unsigned char* pReadBuff, int nBuffLen)`. -/
def nRF905SendFrame (env : Env) (pReadBuff : List Nat) (nBuffLen : Int) (d : Driver) :
    Int × Driver :=
  let d := (setNRF905Mode NRF905_MODE_STD_BY d).2
  let d := (writeTxPayload env pReadBuff nBuffLen d).2
  let d := (setNRF905Mode NRF905_MODE_BURST_TX d).2
  let d := { d with tNRF905Status := { d.tNRF905Status with
    unNRF905SendFrameCNT := (d.tNRF905Status.unNRF905SendFrameCNT + 1) % 2 ^ 32 } }
  (0, d)

/-- Source: `nRF905StopListen`. -/
def nRF905StopListen (d : Driver) : Int × Driver :=
  let d := (setNRF905Mode NRF905_MODE_STD_BY d).2
  let d := emit (HwEvent.close d.nRF905PipeFd.1) d
  let d := emit (HwEvent.close d.nRF905PipeFd.2) d
  (0, d)

/-- Source: `getNRF905StatusRecvFrameCNT`. -/
def getNRF905StatusRecvFrameCNT (d : Driver) : Nat := d.tNRF905Status.unNRF905RecvFrameCNT

/-- Source: `getNRF905StatusSendFrameCNT`. -/
def getNRF905StatusSendFrameCNT (d : Driver) : Nat := d.tNRF905Status.unNRF905SendFrameCNT

/-- Source: `getNRF905StatusHoppingCNT`. -/
def getNRF905StatusHoppingCNT (d : Driver) : Nat := d.tNRF905Status.unNRF905HoppingCNT

/-! ## Observations on the hardware record -/

/-- The pin writes among the hardware calls, in order. -/
def pinWrites (hw : List HwEvent) : List (Nat × PinLevel) :=
  hw.filterMap fun e =>
    match e with
    | HwEvent.digitalWrite pin level => some (pin, level)
    | _ => none

/-- The bus transactions among the hardware calls, in order: the bytes sent. -/
def busTransfers (hw : List HwEvent) : List (List Nat) :=
  hw.filterMap fun e =>
    match e with
    | HwEvent.wiringPiSPIDataRW _ data => some data
    | _ => none

/-- The program variables that the mode controller and the codec never write:
`d'` agrees with `d` on every counter, address, the channel/power word, the bus
channel, the pipe, the hopping table and its length, the power and the hopping
index. The recorded mode, the handler's scratch statics and the two records
may differ. -/
structure Frame (d d' : Driver) : Prop where
  recv : d'.tNRF905Status.unNRF905RecvFrameCNT = d.tNRF905Status.unNRF905RecvFrameCNT
  send : d'.tNRF905Status.unNRF905SendFrameCNT = d.tNRF905Status.unNRF905SendFrameCNT
  hop : d'.tNRF905Status.unNRF905HoppingCNT = d.tNRF905Status.unNRF905HoppingCNT
  txAddr : d'.tNRF905Status.unNRF905TxAddr = d.tNRF905Status.unNRF905TxAddr
  rxAddr : d'.tNRF905Status.unNRF905RxAddr = d.tNRF905Status.unNRF905RxAddr
  chnPwr : d'.tNRF905Status.unNRF905CHN_PWR = d.tNRF905Status.unNRF905CHN_PWR
  chn : d'.nRF905SPI_CHN = d.nRF905SPI_CHN
  pipeFd : d'.nRF905PipeFd = d.nRF905PipeFd
  table : d'.pRoamingTable = d.pRoamingTable
  tableLen : d'.nRoamingTableLen = d.nRoamingTableLen
  power : d'.unNRF905Power = d.unNRF905Power
  hopping : d'.nHoppingPoint = d.nHoppingPoint

/-! ## Concrete inputs used by the examples -/

/-- A concrete environment: every transfer returns `result` and clocks in the
byte `byte`; allocation, bus setup and `pipe` succeed; unwritten memory reads 0. -/
def constEnv (result : Int) (byte : Nat) : Env where
  spi := fun _ _ _ => ⟨result, fun _ => byte⟩
  malloc := fun _ _ => true
  spiSetup := fun _ _ _ => 3
  pipe := fun _ => some (5, 6)
  memory := fun _ => 0

/-- The initial state with the recorded mode replaced by `m`. -/
def Driver.inMode (m : nRF905Mode_t) : Driver :=
  { Driver.init with
    tNRF905Status := { Driver.init.tNRF905Status with tNRF905CurrentMode := m } }

/-- A state with the hopping table `[3, 17, 42]` installed, power 5, the hopping
index at 1 and the hop counter at `2 ^ 32 - 1`. -/
def roamStart : Driver :=
  { Driver.init with
    tNRF905Status := { Driver.init.tNRF905Status with unNRF905HoppingCNT := 2 ^ 32 - 1 }
    pRoamingTable := [3, 17, 42]
    nRoamingTableLen := 3
    unNRF905Power := 5
    nHoppingPoint := 1 }

/-! ## Specification-side descriptions -/

/-- A register access as the specification describes it: starting from `d`,
enter Standby, make one bus transfer of `data` in the state so reached, then
set the mode `m`. -/
def standbyTransfer (env : Env) (data : List Nat) (m : nRF905Mode_t) (d : Driver) : Driver :=
  let d1 := (setNRF905Mode NRF905_MODE_STD_BY d).2
  let r := wiringPiSPIDataRW env d1.nRF905SPI_CHN data d1
  (setNRF905Mode m r.2.2).2

/-- The state `d'` is what a register access through Standby leaves behind when
started in `d` with mode `m` to restore, for some bytes transferred. -/
def ViaStandby (env : Env) (m : nRF905Mode_t) (d d' : Driver) : Prop :=
  ∃ data, d' = standbyTransfer env data m d

/-- The level most recently written to `pin` with `digitalWrite`, if any. -/
def lastLevel (pin : Nat) (hw : List HwEvent) : Option PinLevel :=
  ((pinWrites hw).reverse.find? (fun w => decide (w.1 = pin))).map (fun w => w.2)

/-- The three mode pins were each last written with the level that the row of
mode `m` in `unNRF905MODE_PIN_LEVEL` gives. -/
def PinsShow (m : nRF905Mode_t) (hw : List HwEvent) : Prop :=
  ∃ lv, unNRF905MODE_PIN_LEVEL.get? m = some lv ∧
    lastLevel NRF905_PWR_UP_PIN hw = some lv.nPWR_UP_PIN ∧
    lastLevel NRF905_TRX_CE_PIN hw = some lv.nTRX_CE_PIN ∧
    lastLevel NRF905_TX_EN_PIN hw = some lv.nTX_EN_PIN

/-- Either no pin has been written yet, or the pins show the recorded mode. -/
def PinsAgree (d : Driver) : Prop :=
  pinWrites d.hw = [] ∨ PinsShow d.tNRF905Status.tNRF905CurrentMode d.hw

/-- The states the driver can be in: the initial state, and every state reached
from a reachable one by one driver operation, with any arguments and any
behaviour of the collaborators. -/
inductive Reachable : Driver → Prop where
  | start : Reachable Driver.init
  | setMode (m : nRF905Mode_t) {d : Driver} :
      Reachable d → Reachable (setNRF905Mode m d).2
  | spiWrCmd (env : Env) (c : Nat) (p : List Nat) (n : Int) {d : Driver} :
      Reachable d → Reachable (nRF905SPI_WR_CMD env c p n d).2
  | readStatus (env : Env) {d : Driver} :
      Reachable d → Reachable (readStatusReg env d).2
  | readPayload (env : Env) (p : List Nat) (n : Int) {d : Driver} :
      Reachable d → Reachable (readRxPayload env p n d).2.2
  | readCfg (env : Env) (a : Nat) (p : List Nat) (n : Int) {d : Driver} :
      Reachable d → Reachable (readConfig env a p n d).2.2
  | writeCfg (env : Env) (a : Nat) (p : List Nat) (n : Int) {d : Driver} :
      Reachable d → Reachable (writeConfig env a p n d).2
  | writeTx (env : Env) (a : Nat) {d : Driver} :
      Reachable d → Reachable (writeTxAddr env a d).2
  | writeRx (env : Env) (a : Nat) {d : Driver} :
      Reachable d → Reachable (writeRxAddr env a d).2
  | writePayload (env : Env) (p : List Nat) (n : Int) {d : Driver} :
      Reachable d → Reachable (writeTxPayload env p n d).2
  | fastConfig (env : Env) (w : Nat) {d : Driver} :
      Reachable d → Reachable (writeFastConfig env w d).2
  | dataReady (env : Env) {d : Driver} :
      Reachable d → Reachable (dataReadyHandler env d)
  | roam (env : Env) {d d' : Driver} :
      Reachable d → roamNRF905 env d = some d' → Reachable d'
  | initial (env : Env) (ch sp : Int) (p : Nat) {d : Driver} :
      Reachable d → Reachable (nRF905Initial env ch sp p d).2
  | startListen (env : Env) (t : List Nat) (n : Int) {d : Driver} :
      Reachable d → Reachable (nRF905StartListen env t n d).2
  | setPower (p : Nat) {d : Driver} :
      Reachable d → Reachable (setNRF905Power p d)
  | sendFrame (env : Env) (p : List Nat) (n : Int) {d : Driver} :
      Reachable d → Reachable (nRF905SendFrame env p n d).2
  | stopListen {d : Driver} :
      Reachable d → Reachable (nRF905StopListen d).2

/-- The run `nRF905StartListen([3, 17, 42], 3)`, two roams, then
`nRF905StartListen([9], 1)` from the initial state, with collaborators that
always succeed; `none` if one of the roams reads outside its table. -/
def relistenRun : Option Driver :=
  ((roamNRF905 (constEnv 0 0)
      (nRF905StartListen (constEnv 0 0) [3, 17, 42] 3 Driver.init).2).bind
    (roamNRF905 (constEnv 0 0))).map
    (fun d => (nRF905StartListen (constEnv 0 0) [9] 1 d).2)

/-! ## Address derivation: bit-level lemmas -/

theorem shiftLeft16_lt (w : Nat) (hw : w < 2 ^ 16) : w <<< 16 < 2 ^ 32 := by
  rw [Nat.shiftLeft_eq]; omega

/-- On a 16-bit word the TX address is the doubled word under the TX mask. -/
theorem getTxAddrFromChnPwr_eq (w : Nat) (hw : w < 2 ^ 16) :
    getTxAddrFromChnPwr w = (w ||| w <<< 16) &&& 0xA33D59AA := by
  have h1 : w % 2 ^ 32 = w := Nat.mod_eq_of_lt (by omega)
  have h2 : (w <<< 16) % 2 ^ 32 = w <<< 16 := Nat.mod_eq_of_lt (shiftLeft16_lt w hw)
  simp only [getTxAddrFromChnPwr, h1, h2]

/-- On a 16-bit word the RX address is the doubled word under the RX mask. -/
theorem getRxAddrFromChnPwr_eq (w : Nat) (hw : w < 2 ^ 16) :
    getRxAddrFromChnPwr w = (w ||| w <<< 16) &&& 0x5CA259AA := by
  have h1 : w % 2 ^ 16 = w := Nat.mod_eq_of_lt hw
  have h2 : (w <<< 16) % 2 ^ 32 = w <<< 16 := Nat.mod_eq_of_lt (shiftLeft16_lt w hw)
  simp only [getRxAddrFromChnPwr, h1, h2]

theorem testBit_high_of_lt (w j : Nat) (hw : w < 2 ^ 16) : w.testBit (j + 16) = false :=
  Nat.testBit_lt_two_pow
    (lt_of_lt_of_le hw (Nat.pow_le_pow_right (by norm_num) (by omega)))

theorem testBit_of_lt_two_pow_le (m k i : Nat) (hm : m < 2 ^ k) (hi : k ≤ i) :
    m.testBit i = false :=
  Nat.testBit_lt_two_pow (lt_of_lt_of_le hm (Nat.pow_le_pow_right (by norm_num) hi))

/-- The two addresses of a 16-bit word coincide exactly when the word has no bit
where the upper halves of the masks differ (`0xA33D ^ 0x5CA2 = 0xFF9F`). -/
theorem addr_eq_iff (w : Nat) (hw : w < 2 ^ 16) :
    getTxAddrFromChnPwr w = getRxAddrFromChnPwr w ↔ w &&& 0xFF9F = 0 := by
  rw [getTxAddrFromChnPwr_eq w hw, getRxAddrFromChnPwr_eq w hw]
  constructor
  · intro h
    apply Nat.eq_of_testBit_eq
    intro j
    rw [Nat.zero_testBit, Nat.testBit_and]
    by_cases hj : j < 16
    · have hb := congrArg (fun x => Nat.testBit x (j + 16)) h
      simp only [Nat.testBit_and, Nat.testBit_or, Nat.testBit_shiftLeft,
        testBit_high_of_lt w j hw, Nat.add_sub_cancel, Bool.false_or] at hb
      interval_cases j <;> simp_all [Nat.testBit_to_div_mod]
    · rw [testBit_of_lt_two_pow_le 0xFF9F 16 j (by norm_num) (by omega), Bool.and_false]
  · intro h
    have hb : ∀ j, (w.testBit j && Nat.testBit 0xFF9F j) = false := by
      intro j
      rw [← Nat.testBit_and, h, Nat.zero_testBit]
    apply Nat.eq_of_testBit_eq
    intro i
    simp only [Nat.testBit_and, Nat.testBit_or, Nat.testBit_shiftLeft]
    by_cases hi : i < 32
    · have h0 := hb i
      have h1 := hb (i - 16)
      clear hb h
      interval_cases i <;> simp [Nat.testBit_to_div_mod] at h0 h1 ⊢ <;> omega
    · rw [testBit_of_lt_two_pow_le 0xA33D59AA 32 i (by norm_num) (by omega),
        testBit_of_lt_two_pow_le 0x5CA259AA 32 i (by norm_num) (by omega)]

/-- The bitwise AND of the two addresses is the doubled word under the AND of the masks. -/
theorem addr_and_eq (w : Nat) (hw : w < 2 ^ 16) :
    getTxAddrFromChnPwr w &&& getRxAddrFromChnPwr w = (w ||| w <<< 16) &&& 0x002059AA := by
  rw [getTxAddrFromChnPwr_eq w hw, getRxAddrFromChnPwr_eq w hw]
  have hm : (0x002059AA : Nat) = 0xA33D59AA &&& 0x5CA259AA := by decide
  rw [hm]
  apply Nat.eq_of_testBit_eq
  intro i
  simp only [Nat.testBit_and]
  cases (w ||| w <<< 16).testBit i <;> simp

/-! ## Effects of the mode controller and the codec -/

theorem Frame.refl (d : Driver) : Frame d d :=
  ⟨rfl, rfl, rfl, rfl, rfl, rfl, rfl, rfl, rfl, rfl, rfl, rfl⟩

theorem Frame.trans {a b c : Driver} (h1 : Frame a b) (h2 : Frame b c) : Frame a c :=
  ⟨h2.recv.trans h1.recv, h2.send.trans h1.send, h2.hop.trans h1.hop,
    h2.txAddr.trans h1.txAddr, h2.rxAddr.trans h1.rxAddr, h2.chnPwr.trans h1.chnPwr,
    h2.chn.trans h1.chn, h2.pipeFd.trans h1.pipeFd, h2.table.trans h1.table,
    h2.tableLen.trans h1.tableLen, h2.power.trans h1.power, h2.hopping.trans h1.hopping⟩

/-- A state is determined up to its mode by a frame: equal modes give equal status records. -/
theorem Frame.status_eq {d d' : Driver} (h : Frame d d')
    (hm : d'.tNRF905Status.tNRF905CurrentMode = d.tNRF905Status.tNRF905CurrentMode) :
    d'.tNRF905Status = d.tNRF905Status := by
  obtain ⟨h1, h2, h3, h4, h5, h6, -, -, -, -, -, -⟩ := h
  cases hd : d.tNRF905Status
  cases hd' : d'.tNRF905Status
  simp only [hd, hd'] at h1 h2 h3 h4 h5 h6 hm
  simp [h1, h2, h3, h4, h5, h6, hm]

theorem frame_logLine (e : LogEntry) (d : Driver) : Frame d (logLine e d) :=
  ⟨rfl, rfl, rfl, rfl, rfl, rfl, rfl, rfl, rfl, rfl, rfl, rfl⟩

theorem frame_emit (e : HwEvent) (d : Driver) : Frame d (emit e d) :=
  ⟨rfl, rfl, rfl, rfl, rfl, rfl, rfl, rfl, rfl, rfl, rfl, rfl⟩

theorem frame_setNRF905Mode (m : nRF905Mode_t) (d : Driver) :
    Frame d (setNRF905Mode m d).2 := by
  unfold setNRF905Mode
  split_ifs <;> exact ⟨rfl, rfl, rfl, rfl, rfl, rfl, rfl, rfl, rfl, rfl, rfl, rfl⟩

theorem frame_wiringPiSPIDataRW (env : Env) (c : Int) (data : List Nat) (d : Driver) :
    Frame d (wiringPiSPIDataRW env c data d).2.2 :=
  ⟨rfl, rfl, rfl, rfl, rfl, rfl, rfl, rfl, rfl, rfl, rfl, rfl⟩

/-- A valid target is the recorded mode after `setNRF905Mode`. -/
theorem mode_setNRF905Mode (m : nRF905Mode_t) (d : Driver) (hm : m < NRF905_MODE_MAX) :
    (setNRF905Mode m d).2.tNRF905Status.tNRF905CurrentMode = m := by
  unfold setNRF905Mode
  split_ifs with h1 h2
  · exact absurd hm (Nat.not_lt.mpr h1)
  · exact h2.symm
  · rfl

theorem busTransfers_append (a b : List HwEvent) :
    busTransfers (a ++ b) = busTransfers a ++ busTransfers b := by
  simp [busTransfers]

theorem pinWrites_append (a b : List HwEvent) :
    pinWrites (a ++ b) = pinWrites a ++ pinWrites b := by
  simp [pinWrites]

/-- The mode controller performs no bus transaction. -/
theorem busTransfers_setNRF905Mode (m : nRF905Mode_t) (d : Driver) :
    busTransfers (setNRF905Mode m d).2.hw = busTransfers d.hw := by
  unfold setNRF905Mode
  split_ifs <;> simp [busTransfers, digitalWrite, emit, logLine]

theorem busTransfers_wiringPiSPIDataRW (env : Env) (c : Int) (data : List Nat) (d : Driver) :
    busTransfers (wiringPiSPIDataRW env c data d).2.2.hw = busTransfers d.hw ++ [data] := by
  simp [busTransfers, wiringPiSPIDataRW, emit]

/-- Setting the mode that is already recorded only writes a log line. -/
theorem setNRF905Mode_same (d : Driver)
    (hm : d.tNRF905Status.tNRF905CurrentMode < NRF905_MODE_MAX) :
    setNRF905Mode d.tNRF905Status.tNRF905CurrentMode d
      = (0, logLine (LogEntry.info "nRF905 Mode not changed, no need to set pin.") d) := by
  unfold setNRF905Mode
  rw [dif_neg (Nat.not_le.mpr hm), if_pos rfl]

/-- Setting a valid mode other than the recorded one writes the three pins of its
table row, TX_EN first, then TRX_CE, then PWR_UP. -/
theorem pinWrites_setNRF905Mode_change (m : nRF905Mode_t) (d : Driver)
    (lv : nRF905PinLevelInMode_t) (hlv : unNRF905MODE_PIN_LEVEL.get? m = some lv)
    (hne : m ≠ d.tNRF905Status.tNRF905CurrentMode) :
    pinWrites (setNRF905Mode m d).2.hw = pinWrites d.hw ++
      [(NRF905_TX_EN_PIN, lv.nTX_EN_PIN), (NRF905_TRX_CE_PIN, lv.nTRX_CE_PIN),
       (NRF905_PWR_UP_PIN, lv.nPWR_UP_PIN)] := by
  have hlt : m < unNRF905MODE_PIN_LEVEL.length := by
    by_contra hc
    rw [List.get?_eq_none.mpr (Nat.le_of_not_lt hc)] at hlv
    exact Option.noConfusion hlv
  have hget : unNRF905MODE_PIN_LEVEL.get ⟨m, hlt⟩ = lv := by
    rw [List.get?_eq_get hlt] at hlv
    exact Option.some.inj hlv
  have hge : ¬ m ≥ NRF905_MODE_MAX := Nat.not_le.mpr hlt
  unfold setNRF905Mode
  rw [dif_neg hge, if_neg hne]
  rw [List.get_eq_getElem] at hget
  simp [pinWrites, digitalWrite, emit, hget]

theorem setNRF905Mode_of_eq (m : nRF905Mode_t) (d : Driver) (hm : m < NRF905_MODE_MAX)
    (he : m = d.tNRF905Status.tNRF905CurrentMode) :
    setNRF905Mode m d
      = (0, logLine (LogEntry.info "nRF905 Mode not changed, no need to set pin.") d) := by
  subst he
  exact setNRF905Mode_same d hm

theorem readBytes_self (env : Env) (p : List Nat) : readBytes env p p.length = p := by
  apply List.ext_getElem
  · simp [readBytes]
  · intro k h1 h2
    simp [readBytes, List.getElem?_eq_getElem h2]

/-- With a positive length and a successful allocation, `nRF905SPI_WR_CMD` makes one
bus transaction: the command byte followed by the data bytes. -/
theorem busTransfers_nRF905SPI_WR_CMD (env : Env) (unCMD : Nat) (pData : List Nat)
    (nDataLen : Int) (d : Driver) (hlen : nDataLen > 0)
    (hmalloc : env.malloc d.hw (nDataLen + 1).toNat = true) :
    busTransfers (nRF905SPI_WR_CMD env unCMD pData nDataLen d).2.hw
      = busTransfers d.hw ++ [(unCMD % 256) :: readBytes env pData nDataLen.toNat] := by
  unfold nRF905SPI_WR_CMD
  rw [if_pos hlen, if_pos hmalloc]
  simp only [busTransfers_setNRF905Mode, busTransfers_wiringPiSPIDataRW]

/-- The fast-config write makes one bus transaction: the two bytes of its argument. -/
theorem busTransfers_writeFastConfig (env : Env) (w : Nat) (d : Driver) :
    busTransfers (writeFastConfig env w d).2.hw
      = busTransfers d.hw ++ [bytes16 (w % 2 ^ 16)] := by
  unfold writeFastConfig
  simp only [busTransfers_setNRF905Mode, busTransfers_wiringPiSPIDataRW]

theorem frame_readStatusReg (env : Env) (d : Driver) : Frame d (readStatusReg env d).2 := by
  have h : Frame d (setNRF905Mode d.tNRF905Status.tNRF905CurrentMode
      (wiringPiSPIDataRW env (setNRF905Mode NRF905_MODE_STD_BY d).2.nRF905SPI_CHN
        [NRF905_CMD_RC 1 % 256] (setNRF905Mode NRF905_MODE_STD_BY d).2).2.2).2 :=
    (frame_setNRF905Mode _ d).trans
      ((frame_wiringPiSPIDataRW env _ _ _).trans (frame_setNRF905Mode _ _))
  unfold readStatusReg
  simp only []
  split_ifs <;> exact h

/-- The status read makes one bus transaction: the single byte `NRF905_CMD_RC(1)`. -/
theorem busTransfers_readStatusReg (env : Env) (d : Driver) :
    busTransfers (readStatusReg env d).2.hw = busTransfers d.hw ++ [[0x11]] := by
  unfold readStatusReg
  simp only []
  split_ifs <;>
    simp only [busTransfers_setNRF905Mode, busTransfers_wiringPiSPIDataRW] <;> rfl

theorem frame_readRxPayload (env : Env) (pBuff : List Nat) (n : Int) (d : Driver) :
    Frame d (readRxPayload env pBuff n d).2.2 := by
  unfold readRxPayload
  split_ifs
  · exact (frame_setNRF905Mode _ d).trans
      ((frame_wiringPiSPIDataRW env _ _ _).trans (frame_setNRF905Mode _ _))
  · exact Frame.refl d

/-- With a length in `[1, 32]` the payload read makes one bus transaction: the
opcode `0x21` followed by `n` bytes of the uninitialised local buffer. -/
theorem busTransfers_readRxPayload (env : Env) (pBuff : List Nat) (n : Int) (d : Driver)
    (hn : n > 0 ∧ n < 33) :
    busTransfers (readRxPayload env pBuff n d).2.2.hw = busTransfers d.hw ++
      [0x21 :: (List.range n.toNat).map (fun k => env.memory (k + 1) % 256)] := by
  unfold readRxPayload
  rw [if_pos hn]
  simp only [busTransfers_setNRF905Mode, busTransfers_wiringPiSPIDataRW]
  rfl

theorem log_setNRF905Mode (m : nRF905Mode_t) (d : Driver) (e : LogEntry) (he : e ∈ d.log) :
    e ∈ (setNRF905Mode m d).2.log := by
  unfold setNRF905Mode
  split_ifs <;> simp [logLine, digitalWrite, emit, he]

theorem frame_storeStatusReg (v : Int) (d : Driver) : Frame d (storeStatusReg v d) :=
  ⟨rfl, rfl, rfl, rfl, rfl, rfl, rfl, rfl, rfl, rfl, rfl, rfl⟩

theorem frame_storeReadBuff (b : List Nat) (d : Driver) : Frame d (storeReadBuff b d) :=
  ⟨rfl, rfl, rfl, rfl, rfl, rfl, rfl, rfl, rfl, rfl, rfl, rfl⟩

/-- The handler in BurstReceive when the status check does not object: status
read, payload read into the static buffer, back to BurstReceive. -/
theorem dataReadyHandler_rx_read (env : Env) (d : Driver)
    (hmode : d.tNRF905Status.tNRF905CurrentMode = NRF905_MODE_BURST_RX)
    (hcond : ¬ ((readStatusReg env (setNRF905Mode NRF905_MODE_STD_BY d).2).1 ≥ 0 ∧
      NRF905_DR_IN_STATUS_REG
        (readStatusReg env (setNRF905Mode NRF905_MODE_STD_BY d).2).1.toNat = 0)) :
    dataReadyHandler env d =
      (setNRF905Mode NRF905_MODE_BURST_RX
        (storeReadBuff
          (readRxPayload env
            (storeStatusReg (readStatusReg env (setNRF905Mode NRF905_MODE_STD_BY d).2).1
              (readStatusReg env (setNRF905Mode NRF905_MODE_STD_BY d).2).2).unReadBuff 32
            (storeStatusReg (readStatusReg env (setNRF905Mode NRF905_MODE_STD_BY d).2).1
              (readStatusReg env (setNRF905Mode NRF905_MODE_STD_BY d).2).2)).2.1
          (readRxPayload env
            (storeStatusReg (readStatusReg env (setNRF905Mode NRF905_MODE_STD_BY d).2).1
              (readStatusReg env (setNRF905Mode NRF905_MODE_STD_BY d).2).2).unReadBuff 32
            (storeStatusReg (readStatusReg env (setNRF905Mode NRF905_MODE_STD_BY d).2).1
              (readStatusReg env (setNRF905Mode NRF905_MODE_STD_BY d).2).2)).2.2)).2 := by
  unfold dataReadyHandler
  rw [if_pos hmode.symm]
  have hc : ¬ ((storeStatusReg (readStatusReg env (setNRF905Mode NRF905_MODE_STD_BY d).2).1
      (readStatusReg env (setNRF905Mode NRF905_MODE_STD_BY d).2).2).nStatusReg ≥ 0 ∧
      NRF905_DR_IN_STATUS_REG
        (storeStatusReg (readStatusReg env (setNRF905Mode NRF905_MODE_STD_BY d).2).1
          (readStatusReg env (setNRF905Mode NRF905_MODE_STD_BY d).2).2).nStatusReg.toNat = 0) :=
    hcond
  simp only [if_neg hc]

/-- The handler in BurstReceive when the status read succeeded with data-ready
clear: status read, an error line, back to BurstReceive. -/
theorem dataReadyHandler_rx_skip (env : Env) (d : Driver)
    (hmode : d.tNRF905Status.tNRF905CurrentMode = NRF905_MODE_BURST_RX)
    (hcond : (readStatusReg env (setNRF905Mode NRF905_MODE_STD_BY d).2).1 ≥ 0 ∧
      NRF905_DR_IN_STATUS_REG
        (readStatusReg env (setNRF905Mode NRF905_MODE_STD_BY d).2).1.toNat = 0) :
    dataReadyHandler env d =
      (setNRF905Mode NRF905_MODE_BURST_RX
        (logLine (LogEntry.err "Strange happens. DR pin set but status register not.")
          (storeStatusReg (readStatusReg env (setNRF905Mode NRF905_MODE_STD_BY d).2).1
            (readStatusReg env (setNRF905Mode NRF905_MODE_STD_BY d).2).2))).2 := by
  unfold dataReadyHandler
  rw [if_pos hmode.symm]
  have hc : (storeStatusReg (readStatusReg env (setNRF905Mode NRF905_MODE_STD_BY d).2).1
      (readStatusReg env (setNRF905Mode NRF905_MODE_STD_BY d).2).2).nStatusReg ≥ 0 ∧
      NRF905_DR_IN_STATUS_REG
        (storeStatusReg (readStatusReg env (setNRF905Mode NRF905_MODE_STD_BY d).2).1
          (readStatusReg env (setNRF905Mode NRF905_MODE_STD_BY d).2).2).nStatusReg.toNat = 0 :=
    hcond
  simp only [if_pos hc]

theorem frame_nRF905SPI_WR_CMD (env : Env) (c : Nat) (p : List Nat) (n : Int) (d : Driver) :
    Frame d (nRF905SPI_WR_CMD env c p n d).2 := by
  unfold nRF905SPI_WR_CMD
  split_ifs
  · exact (frame_setNRF905Mode _ d).trans
      ((frame_wiringPiSPIDataRW env _ _ _).trans (frame_setNRF905Mode _ _))
  · exact Frame.refl d
  · exact Frame.refl d

theorem frame_writeFastConfig (env : Env) (w : Nat) (d : Driver) :
    Frame d (writeFastConfig env w d).2 :=
  (frame_setNRF905Mode _ d).trans
    ((frame_wiringPiSPIDataRW env _ _ _).trans (frame_setNRF905Mode _ _))

theorem frame_writeTxAddr (env : Env) (a : Nat) (d : Driver) :
    Frame d (writeTxAddr env a d).2 :=
  frame_nRF905SPI_WR_CMD env _ _ _ d

theorem frame_writeRxAddr (env : Env) (a : Nat) (d : Driver) :
    Frame d (writeRxAddr env a d).2 :=
  frame_nRF905SPI_WR_CMD env _ _ _ d

theorem readTable_natCast (t : List Nat) (i : Nat) : readTable t (i : Int) = t.get? i := by
  simp [readTable]

theorem frame_roamWrite (env : Env) (d : Driver) : Frame d (roamWrite env d) :=
  (frame_writeFastConfig env _ _).trans
    ((frame_writeTxAddr env _ _).trans
      ((frame_writeRxAddr env _ _).trans (frame_setNRF905Mode _ _)))

/-- One `roamNRF905` call, given the table entry under the hopping index. -/
theorem roamNRF905_spec (env : Env) (d : Driver) (chn : Nat)
    (h : readTable d.pRoamingTable d.nHoppingPoint = some chn) :
    ∃ d', roamNRF905 env d = some d' ∧
      d'.tNRF905Status.tNRF905CurrentMode = NRF905_MODE_BURST_RX ∧
      d'.tNRF905Status.unNRF905CHN_PWR
        = GET_CHN_PWR_FAST_CONFIG chn d.unNRF905Power % 2 ^ 16 ∧
      d'.tNRF905Status.unNRF905TxAddr
        = getTxAddrFromChnPwr (GET_CHN_PWR_FAST_CONFIG chn d.unNRF905Power % 2 ^ 16) ∧
      d'.tNRF905Status.unNRF905RxAddr
        = getRxAddrFromChnPwr (GET_CHN_PWR_FAST_CONFIG chn d.unNRF905Power % 2 ^ 16) ∧
      d'.nHoppingPoint
        = (if d.nHoppingPoint < d.nRoamingTableLen - 1 then d.nHoppingPoint + 1 else 0) ∧
      d'.tNRF905Status.unNRF905HoppingCNT
        = (d.tNRF905Status.unNRF905HoppingCNT + 1) % 2 ^ 32 ∧
      d'.pRoamingTable = d.pRoamingTable ∧
      d'.nRoamingTableLen = d.nRoamingTableLen ∧
      d'.unNRF905Power = d.unNRF905Power := by
  have f1 := frame_setNRF905Mode NRF905_MODE_STD_BY d
  have h1 : readTable (setNRF905Mode NRF905_MODE_STD_BY d).2.pRoamingTable
      (setNRF905Mode NRF905_MODE_STD_BY d).2.nHoppingPoint = some chn := by
    rw [f1.table, f1.hopping]; exact h
  have f2 := frame_roamWrite env (roamUpdate chn (setNRF905Mode NRF905_MODE_STD_BY d).2)
  refine ⟨roamWrite env (roamUpdate chn (setNRF905Mode NRF905_MODE_STD_BY d).2), ?_,
    mode_setNRF905Mode _ _ (by decide), ?_, ?_, ?_, ?_, ?_, ?_, ?_, ?_⟩
  · unfold roamNRF905
    simp only [h1]
  · rw [f2.chnPwr]; show _ % 2 ^ 16 = _; rw [f1.power]
  · rw [f2.txAddr]; show getTxAddrFromChnPwr (_ % 2 ^ 16) = _; rw [f1.power]
  · rw [f2.rxAddr]; show getRxAddrFromChnPwr (_ % 2 ^ 16) = _; rw [f1.power]
  · rw [f2.hopping]
    show (if _ < _ - 1 then _ + 1 else 0) = _
    rw [f1.hopping, f1.tableLen]
  · rw [f2.hop]; show (_ + 1) % 2 ^ 32 = _; rw [f1.hop]
  · rw [f2.table]; exact f1.table
  · rw [f2.tableLen]; exact f1.tableLen
  · rw [f2.power]; exact f1.power

/-- The conditional advance of the hopping index is the successor modulo the table length. -/
theorem hopping_advance (i L : Nat) (hi : i < L) :
    (if (i : Int) < (L : Int) - 1 then (i : Int) + 1 else 0) = (((i + 1) % L : Nat) : Int) := by
  by_cases h : i + 1 < L
  · rw [if_pos (by omega), Nat.mod_eq_of_lt h]
    push_cast
    rfl
  · have hL : i + 1 = L := by omega
    rw [if_neg (by omega), hL, Nat.mod_self]
    rfl

/-- One `roamNRF905` call from an index inside a table of matching length. -/
theorem roamNRF905_step (env : Env) (d : Driver) (L i : Nat)
    (hlen : d.pRoamingTable.length = L) (hn : d.nRoamingTableLen = (L : Int))
    (hidx : d.nHoppingPoint = (i : Int)) (hi : i < d.pRoamingTable.length) :
    ∃ d', roamNRF905 env d = some d' ∧
      d'.tNRF905Status.tNRF905CurrentMode = NRF905_MODE_BURST_RX ∧
      d'.tNRF905Status.unNRF905CHN_PWR
        = GET_CHN_PWR_FAST_CONFIG d.pRoamingTable[i] d.unNRF905Power % 2 ^ 16 ∧
      d'.tNRF905Status.unNRF905TxAddr
        = getTxAddrFromChnPwr d'.tNRF905Status.unNRF905CHN_PWR ∧
      d'.tNRF905Status.unNRF905RxAddr
        = getRxAddrFromChnPwr d'.tNRF905Status.unNRF905CHN_PWR ∧
      d'.nHoppingPoint = (((i + 1) % L : Nat) : Int) ∧
      d'.tNRF905Status.unNRF905HoppingCNT
        = (d.tNRF905Status.unNRF905HoppingCNT + 1) % 2 ^ 32 ∧
      d'.pRoamingTable = d.pRoamingTable ∧
      d'.nRoamingTableLen = d.nRoamingTableLen ∧
      d'.unNRF905Power = d.unNRF905Power := by
  have hread : readTable d.pRoamingTable d.nHoppingPoint = some d.pRoamingTable[i] := by
    rw [hidx, readTable_natCast, List.get?_eq_get hi]
    rfl
  obtain ⟨d', h0, h1, h2, h3, h4, h5, h6, h7, h8, h9⟩ := roamNRF905_spec env d _ hread
  refine ⟨d', h0, h1, h2, ?_, ?_, ?_, h6, h7, h8, h9⟩
  · rw [h3, h2]
  · rw [h4, h2]
  · rw [h5, hidx, hn]
    exact hopping_advance i L (hlen ▸ hi)

/-- Consecutive roams walk the index around the table and count every hop. -/
theorem roamTimes_spec (env : Env) (L : Nat) (k : Nat) :
    ∀ (d : Driver) (i : Nat), d.pRoamingTable.length = L → d.nRoamingTableLen = (L : Int) →
      d.nHoppingPoint = (i : Int) → i < L → d.tNRF905Status.unNRF905HoppingCNT < 2 ^ 32 →
      ∃ d', roamTimes env k d = some d' ∧
        d'.nHoppingPoint = (((i + k) % L : Nat) : Int) ∧
        d'.tNRF905Status.unNRF905HoppingCNT
          = (d.tNRF905Status.unNRF905HoppingCNT + k) % 2 ^ 32 ∧
        d'.pRoamingTable = d.pRoamingTable ∧
        d'.nRoamingTableLen = d.nRoamingTableLen ∧
        d'.unNRF905Power = d.unNRF905Power := by
  induction k with
  | zero =>
    intro d i hlen hn hidx hi hh
    refine ⟨d, rfl, ?_, ?_, rfl, rfl, rfl⟩
    · rw [Nat.add_zero, Nat.mod_eq_of_lt hi]; exact hidx
    · rw [Nat.add_zero, Nat.mod_eq_of_lt hh]
  | succ k ih =>
    intro d i hlen hn hidx hi _
    obtain ⟨d1, h0, -, -, -, -, h5, h6, h7, h8, h9⟩ :=
      roamNRF905_step env d L i hlen hn hidx (hlen ▸ hi)
    have hpos : 0 < L := by omega
    obtain ⟨d2, g0, g1, g2, g3, g4, g5⟩ :=
      ih d1 ((i + 1) % L) (h7 ▸ hlen) (h8 ▸ hn) h5 (Nat.mod_lt _ hpos)
        (h6 ▸ Nat.mod_lt _ (by norm_num))
    refine ⟨d2, ?_, ?_, ?_, g3.trans h7, g4.trans h8, g5.trans h9⟩
    · show (roamNRF905 env d).bind (roamTimes env k) = some d2
      rw [h0]; exact g0
    · rw [g1, Nat.mod_add_mod]
      congr 2
      omega
    · rw [g2, h6, Nat.mod_add_mod]
      congr 1
      omega

/-! ## Further effects: mode restoration, the handler, packing -/

/-- An out-of-range target makes `setNRF905Mode` fail after logging, nothing else. -/
theorem setNRF905Mode_invalid (m : nRF905Mode_t) (d : Driver) (hm : m ≥ NRF905_MODE_MAX) :
    setNRF905Mode m d = (-1, logLine (LogEntry.err "nRF905 Mode error.") d) := by
  unfold setNRF905Mode
  rw [dif_pos hm]

/-- A valid target never makes `setNRF905Mode` fail. -/
theorem setNRF905Mode_valid_result (m : nRF905Mode_t) (d : Driver)
    (hm : m < NRF905_MODE_MAX) : (setNRF905Mode m d).1 = 0 := by
  unfold setNRF905Mode
  split_ifs with h1 h2
  · exact absurd hm (Nat.not_lt.mpr h1)
  · rfl
  · rfl

/-- The handler when the recorded mode is BurstTransmit. -/
theorem dataReadyHandler_tx (env : Env) (d : Driver)
    (hmode : d.tNRF905Status.tNRF905CurrentMode = NRF905_MODE_BURST_TX) :
    dataReadyHandler env d = (setNRF905Mode NRF905_MODE_BURST_RX d).2 := by
  have h1 : ¬ NRF905_MODE_BURST_RX = d.tNRF905Status.tNRF905CurrentMode := by
    rw [hmode]; decide
  unfold dataReadyHandler
  rw [if_neg h1, if_pos hmode.symm]

/-- The handler when the recorded mode is neither BurstReceive nor BurstTransmit. -/
theorem dataReadyHandler_other (env : Env) (d : Driver)
    (h1 : d.tNRF905Status.tNRF905CurrentMode ≠ NRF905_MODE_BURST_RX)
    (h2 : d.tNRF905Status.tNRF905CurrentMode ≠ NRF905_MODE_BURST_TX) :
    dataReadyHandler env d
      = logLine (LogEntry.err "Data ready pin was set but status is neither TX nor RX.") d := by
  unfold dataReadyHandler
  rw [if_neg (fun h => h1 h.symm), if_neg (fun h => h2 h.symm)]

/-- The packed word as a sum: the channel below bit 10, the power from bit 10 up. -/
theorem GET_CHN_PWR_FAST_CONFIG_eq_add (c p : Nat) (hc : c < 1024) :
    GET_CHN_PWR_FAST_CONFIG c p = 1024 * p + c := by
  have h := Nat.mul_add_lt_is_or (i := 10) (b := c) (by norm_num; exact hc) p
  unfold GET_CHN_PWR_FAST_CONFIG
  rw [Nat.lor_comm, Nat.shiftLeft_eq, Nat.mul_comm p]
  norm_num at h ⊢
  exact h.symm

theorem frame_dataReadyHandler (env : Env) (d : Driver) : Frame d (dataReadyHandler env d) := by
  by_cases h1 : d.tNRF905Status.tNRF905CurrentMode = NRF905_MODE_BURST_RX
  · by_cases hc : (readStatusReg env (setNRF905Mode NRF905_MODE_STD_BY d).2).1 ≥ 0 ∧
        NRF905_DR_IN_STATUS_REG
          (readStatusReg env (setNRF905Mode NRF905_MODE_STD_BY d).2).1.toNat = 0
    · rw [dataReadyHandler_rx_skip env d h1 hc]
      exact (frame_setNRF905Mode _ d).trans
        ((frame_readStatusReg env _).trans
          ((frame_storeStatusReg _ _).trans
            ((frame_logLine _ _).trans (frame_setNRF905Mode _ _))))
    · rw [dataReadyHandler_rx_read env d h1 hc]
      exact (frame_setNRF905Mode _ d).trans
        ((frame_readStatusReg env _).trans
          ((frame_storeStatusReg _ _).trans
            ((frame_readRxPayload env _ _ _).trans
              ((frame_storeReadBuff _ _).trans (frame_setNRF905Mode _ _)))))
  · by_cases h2 : d.tNRF905Status.tNRF905CurrentMode = NRF905_MODE_BURST_TX
    · rw [dataReadyHandler_tx env d h2]
      exact frame_setNRF905Mode _ d
    · rw [dataReadyHandler_other env d h1 h2]
      exact frame_logLine _ d

/-- A roam leaves the two frame counters alone. -/
theorem roamNRF905_counters (env : Env) (d d' : Driver) (h : roamNRF905 env d = some d') :
    d'.tNRF905Status.unNRF905SendFrameCNT = d.tNRF905Status.unNRF905SendFrameCNT ∧
    d'.tNRF905Status.unNRF905RecvFrameCNT = d.tNRF905Status.unNRF905RecvFrameCNT := by
  unfold roamNRF905 at h
  simp only [] at h
  split at h
  · exact Option.noConfusion h
  · rename_i chn _
    have hd := Option.some.inj h
    subst hd
    have f1 := frame_setNRF905Mode NRF905_MODE_STD_BY d
    have f2 := frame_roamWrite env (roamUpdate chn (setNRF905Mode NRF905_MODE_STD_BY d).2)
    exact ⟨f2.send.trans f1.send, f2.recv.trans f1.recv⟩

theorem frame_writeTxPayload (env : Env) (p : List Nat) (n : Int) (d : Driver) :
    Frame d (writeTxPayload env p n d).2 :=
  frame_nRF905SPI_WR_CMD env _ _ _ d

/-- `nRF905SPI_WR_CMD` returns with the valid mode it was entered in. -/
theorem mode_nRF905SPI_WR_CMD (env : Env) (c : Nat) (p : List Nat) (n : Int) (d : Driver)
    (hm : d.tNRF905Status.tNRF905CurrentMode < NRF905_MODE_MAX) :
    (nRF905SPI_WR_CMD env c p n d).2.tNRF905Status.tNRF905CurrentMode
      = d.tNRF905Status.tNRF905CurrentMode := by
  unfold nRF905SPI_WR_CMD
  simp only []
  split_ifs
  · exact mode_setNRF905Mode _ _ hm
  · rfl
  · rfl

/-- `nRF905SendFrame` spelled out: Standby, payload write, BurstTransmit, count. -/
theorem nRF905SendFrame_counters (env : Env) (p : List Nat) (n : Int) (d : Driver) :
    (nRF905SendFrame env p n d).2.tNRF905Status.unNRF905SendFrameCNT
      = (d.tNRF905Status.unNRF905SendFrameCNT + 1) % 2 ^ 32 ∧
    (nRF905SendFrame env p n d).2.tNRF905Status.unNRF905RecvFrameCNT
      = d.tNRF905Status.unNRF905RecvFrameCNT ∧
    (nRF905SendFrame env p n d).2.tNRF905Status.unNRF905HoppingCNT
      = d.tNRF905Status.unNRF905HoppingCNT := by
  have f : Frame d (setNRF905Mode NRF905_MODE_BURST_TX
      (writeTxPayload env p n (setNRF905Mode NRF905_MODE_STD_BY d).2).2).2 :=
    (frame_setNRF905Mode _ d).trans
      ((frame_writeTxPayload env _ _ _).trans (frame_setNRF905Mode _ _))
  refine ⟨?_, f.recv, f.hop⟩
  show (_ + 1) % 2 ^ 32 = _
  rw [f.send]

theorem frame_nRF905CRInitial (env : Env) (d : Driver) : Frame d (nRF905CRInitial env d).2 :=
  frame_nRF905SPI_WR_CMD env _ _ _ d

theorem mode_nRF905CRInitial (env : Env) (d : Driver)
    (hm : d.tNRF905Status.tNRF905CurrentMode < NRF905_MODE_MAX) :
    (nRF905CRInitial env d).2.tNRF905Status.tNRF905CurrentMode
      = d.tNRF905Status.tNRF905CurrentMode :=
  mode_nRF905SPI_WR_CMD env _ _ _ d hm

/-- `nRF905Initial` when the bus setup does not fail: result 0, Standby, and the
send counter of the starting state. -/
theorem nRF905Initial_ok (env : Env) (ch sp : Int) (p : Nat) (d : Driver)
    (hs : ∀ hw, 0 ≤ env.spiSetup hw ch sp) :
    (nRF905Initial env ch sp p d).1 = 0 ∧
    (nRF905Initial env ch sp p d).2.tNRF905Status.tNRF905CurrentMode = NRF905_MODE_STD_BY ∧
    (nRF905Initial env ch sp p d).2.tNRF905Status.unNRF905SendFrameCNT
      = d.tNRF905Status.unNRF905SendFrameCNT := by
  have hs' : ∀ hw, ¬ env.spiSetup hw ch sp < 0 := fun hw => not_lt.mpr (hs hw)
  unfold nRF905Initial
  simp only [hs', if_false]
  refine ⟨trivial, ?_, ?_⟩
  · rw [mode_nRF905CRInitial]
    · exact mode_setNRF905Mode NRF905_MODE_STD_BY _ (by decide)
    · have h := mode_setNRF905Mode NRF905_MODE_STD_BY
        (emit (HwEvent.pinModeInput NRF905_DR_PIN)
          (emit (HwEvent.pinModeOutput NRF905_PWR_UP_PIN)
            (emit (HwEvent.pinModeOutput NRF905_TRX_CE_PIN)
              (emit (HwEvent.pinModeOutput NRF905_TX_EN_PIN)
                { d with unNRF905Power := p % 256 })))) (by decide)
      show (setNRF905Mode NRF905_MODE_STD_BY _).2.tNRF905Status.tNRF905CurrentMode < _
      rw [h]
      decide
  · rw [(frame_nRF905CRInitial env _).send]
    exact (frame_setNRF905Mode NRF905_MODE_STD_BY _).send

theorem mode_readStatusReg (env : Env) (d : Driver)
    (hm : d.tNRF905Status.tNRF905CurrentMode < NRF905_MODE_MAX) :
    (readStatusReg env d).2.tNRF905Status.tNRF905CurrentMode
      = d.tNRF905Status.tNRF905CurrentMode := by
  unfold readStatusReg
  simp only []
  split_ifs <;> exact mode_setNRF905Mode _ _ hm

theorem mode_readRxPayload (env : Env) (p : List Nat) (n : Int) (d : Driver)
    (hm : d.tNRF905Status.tNRF905CurrentMode < NRF905_MODE_MAX) :
    (readRxPayload env p n d).2.2.tNRF905Status.tNRF905CurrentMode
      = d.tNRF905Status.tNRF905CurrentMode := by
  unfold readRxPayload
  simp only []
  split_ifs
  · exact mode_setNRF905Mode _ _ hm
  · rfl

theorem mode_readConfig (env : Env) (a : Nat) (p : List Nat) (n : Int) (d : Driver)
    (hm : d.tNRF905Status.tNRF905CurrentMode < NRF905_MODE_MAX) :
    (readConfig env a p n d).2.2.tNRF905Status.tNRF905CurrentMode
      = d.tNRF905Status.tNRF905CurrentMode := by
  unfold readConfig
  simp only []
  split_ifs
  · exact mode_setNRF905Mode _ _ hm
  · rfl

theorem viaStandby_readStatusReg (env : Env) (d : Driver) :
    ViaStandby env d.tNRF905Status.tNRF905CurrentMode d (readStatusReg env d).2 := by
  refine ⟨[NRF905_CMD_RC 1 % 256], ?_⟩
  unfold readStatusReg
  simp only []
  split_ifs <;> rfl

theorem viaStandby_readRxPayload (env : Env) (p : List Nat) (n : Int) (d : Driver)
    (hn : n > 0 ∧ n < 33) :
    ViaStandby env d.tNRF905Status.tNRF905CurrentMode d (readRxPayload env p n d).2.2 := by
  refine ⟨(NRF905_CMD_RTP % 256) ::
    (List.range n.toNat).map (fun k => env.memory (k + 1) % 256), ?_⟩
  unfold readRxPayload
  rw [if_pos hn]
  rfl

theorem viaStandby_readConfig (env : Env) (a : Nat) (p : List Nat) (n : Int) (d : Driver)
    (hn : n > 0 ∧ n < 33) :
    ViaStandby env d.tNRF905Status.tNRF905CurrentMode d (readConfig env a p n d).2.2 := by
  refine ⟨(NRF905_CMD_RC (a % 256) % 256) ::
    (List.range n.toNat).map (fun k => env.memory (k + 1) % 256), ?_⟩
  unfold readConfig
  rw [if_pos hn]
  rfl

theorem viaStandby_nRF905SPI_WR_CMD (env : Env) (c : Nat) (p : List Nat) (n : Int)
    (d : Driver) (hn : n > 0) (hmalloc : env.malloc d.hw (n + 1).toNat = true) :
    ViaStandby env d.tNRF905Status.tNRF905CurrentMode d (nRF905SPI_WR_CMD env c p n d).2 := by
  refine ⟨(c % 256) :: readBytes env p n.toNat, ?_⟩
  unfold nRF905SPI_WR_CMD
  rw [if_pos hn, if_pos hmalloc]
  rfl

/-! ## The pins follow the recorded mode -/

/-- A step that changes neither the recorded mode nor the pin writes keeps the agreement. -/
theorem pinsAgree_of_same {d d' : Driver} (h : PinsAgree d)
    (hm : d'.tNRF905Status.tNRF905CurrentMode = d.tNRF905Status.tNRF905CurrentMode)
    (hw : pinWrites d'.hw = pinWrites d.hw) : PinsAgree d' := by
  unfold PinsAgree PinsShow lastLevel at *
  rw [hm, hw]
  exact h

theorem pinsAgree_logLine (e : LogEntry) {d : Driver} (h : PinsAgree d) :
    PinsAgree (logLine e d) :=
  pinsAgree_of_same h rfl rfl

theorem pinsAgree_wiringPiSPIDataRW (env : Env) (c : Int) (data : List Nat) {d : Driver}
    (h : PinsAgree d) : PinsAgree (wiringPiSPIDataRW env c data d).2.2 :=
  pinsAgree_of_same h rfl (by simp [pinWrites, wiringPiSPIDataRW, emit])

/-- `setNRF905Mode` keeps the agreement, and establishes it whenever it writes pins. -/
theorem pinsAgree_setNRF905Mode (m : nRF905Mode_t) {d : Driver} (h : PinsAgree d) :
    PinsAgree (setNRF905Mode m d).2 := by
  by_cases hm : m ≥ NRF905_MODE_MAX
  · rw [setNRF905Mode_invalid m d hm]
    exact pinsAgree_logLine _ h
  · have hlt : m < NRF905_MODE_MAX := Nat.lt_of_not_ge hm
    by_cases he : m = d.tNRF905Status.tNRF905CurrentMode
    · rw [setNRF905Mode_of_eq m d hlt he]
      exact pinsAgree_logLine _ h
    · right
      have hl : m < unNRF905MODE_PIN_LEVEL.length := hlt
      have hw := pinWrites_setNRF905Mode_change m d _ (List.get?_eq_get hl) he
      rw [mode_setNRF905Mode m d hlt]
      refine ⟨unNRF905MODE_PIN_LEVEL.get ⟨m, hl⟩, List.get?_eq_get hl, ?_, ?_, ?_⟩ <;>
        simp [lastLevel, hw, NRF905_PWR_UP_PIN, NRF905_TRX_CE_PIN, NRF905_TX_EN_PIN]

theorem pinsAgree_nRF905SPI_WR_CMD (env : Env) (c : Nat) (p : List Nat) (n : Int)
    {d : Driver} (h : PinsAgree d) : PinsAgree (nRF905SPI_WR_CMD env c p n d).2 := by
  unfold nRF905SPI_WR_CMD
  simp only []
  split_ifs
  · exact pinsAgree_setNRF905Mode _
      (pinsAgree_wiringPiSPIDataRW env _ _ (pinsAgree_setNRF905Mode _ h))
  · exact h
  · exact h

theorem pinsAgree_readStatusReg (env : Env) {d : Driver} (h : PinsAgree d) :
    PinsAgree (readStatusReg env d).2 := by
  unfold readStatusReg
  simp only []
  split_ifs <;>
    exact pinsAgree_setNRF905Mode _
      (pinsAgree_wiringPiSPIDataRW env _ _ (pinsAgree_setNRF905Mode _ h))

theorem pinsAgree_readRxPayload (env : Env) (p : List Nat) (n : Int) {d : Driver}
    (h : PinsAgree d) : PinsAgree (readRxPayload env p n d).2.2 := by
  unfold readRxPayload
  simp only []
  split_ifs
  · exact pinsAgree_setNRF905Mode _
      (pinsAgree_wiringPiSPIDataRW env _ _ (pinsAgree_setNRF905Mode _ h))
  · exact h

theorem pinsAgree_readConfig (env : Env) (a : Nat) (p : List Nat) (n : Int) {d : Driver}
    (h : PinsAgree d) : PinsAgree (readConfig env a p n d).2.2 := by
  unfold readConfig
  simp only []
  split_ifs
  · exact pinsAgree_setNRF905Mode _
      (pinsAgree_wiringPiSPIDataRW env _ _ (pinsAgree_setNRF905Mode _ h))
  · exact h

theorem pinsAgree_writeFastConfig (env : Env) (w : Nat) {d : Driver} (h : PinsAgree d) :
    PinsAgree (writeFastConfig env w d).2 :=
  pinsAgree_setNRF905Mode _
    (pinsAgree_wiringPiSPIDataRW env _ _ (pinsAgree_setNRF905Mode _ h))

theorem pinsAgree_dataReadyHandler (env : Env) {d : Driver} (h : PinsAgree d) :
    PinsAgree (dataReadyHandler env d) := by
  by_cases h1 : d.tNRF905Status.tNRF905CurrentMode = NRF905_MODE_BURST_RX
  · have hs : PinsAgree (storeStatusReg
        (readStatusReg env (setNRF905Mode NRF905_MODE_STD_BY d).2).1
        (readStatusReg env (setNRF905Mode NRF905_MODE_STD_BY d).2).2) :=
      pinsAgree_of_same (pinsAgree_readStatusReg env (pinsAgree_setNRF905Mode _ h)) rfl rfl
    by_cases hc : (readStatusReg env (setNRF905Mode NRF905_MODE_STD_BY d).2).1 ≥ 0 ∧
        NRF905_DR_IN_STATUS_REG
          (readStatusReg env (setNRF905Mode NRF905_MODE_STD_BY d).2).1.toNat = 0
    · rw [dataReadyHandler_rx_skip env d h1 hc]
      exact pinsAgree_setNRF905Mode _ (pinsAgree_logLine _ hs)
    · rw [dataReadyHandler_rx_read env d h1 hc]
      exact pinsAgree_setNRF905Mode _
        (pinsAgree_of_same (pinsAgree_readRxPayload env _ _ hs) rfl rfl)
  · by_cases h2 : d.tNRF905Status.tNRF905CurrentMode = NRF905_MODE_BURST_TX
    · rw [dataReadyHandler_tx env d h2]
      exact pinsAgree_setNRF905Mode _ h
    · rw [dataReadyHandler_other env d h1 h2]
      exact pinsAgree_logLine _ h

theorem pinsAgree_roamWrite (env : Env) {d : Driver} (h : PinsAgree d) :
    PinsAgree (roamWrite env d) :=
  pinsAgree_setNRF905Mode _
    (pinsAgree_nRF905SPI_WR_CMD env _ _ _
      (pinsAgree_nRF905SPI_WR_CMD env _ _ _ (pinsAgree_writeFastConfig env _ h)))

theorem pinsAgree_roamNRF905 (env : Env) {d d' : Driver} (h : PinsAgree d)
    (hr : roamNRF905 env d = some d') : PinsAgree d' := by
  unfold roamNRF905 at hr
  simp only [] at hr
  split at hr
  · exact Option.noConfusion hr
  · rename_i chn _
    have hd := Option.some.inj hr
    subst hd
    exact pinsAgree_roamWrite env
      (pinsAgree_of_same (pinsAgree_setNRF905Mode NRF905_MODE_STD_BY h) rfl rfl)

theorem pinsAgree_nRF905SendFrame (env : Env) (p : List Nat) (n : Int) {d : Driver}
    (h : PinsAgree d) : PinsAgree (nRF905SendFrame env p n d).2 :=
  pinsAgree_of_same
    (pinsAgree_setNRF905Mode NRF905_MODE_BURST_TX
      (pinsAgree_nRF905SPI_WR_CMD env _ p n (pinsAgree_setNRF905Mode NRF905_MODE_STD_BY h)))
    rfl rfl

theorem pinsAgree_nRF905StopListen {d : Driver} (h : PinsAgree d) :
    PinsAgree (nRF905StopListen d).2 :=
  pinsAgree_of_same (pinsAgree_setNRF905Mode NRF905_MODE_STD_BY h) rfl
    (by simp [nRF905StopListen, pinWrites, emit])

/-- A hardware call other than a pin write keeps the agreement. -/
theorem pinsAgree_emit (e : HwEvent) (he : pinWrites [e] = []) {d : Driver}
    (h : PinsAgree d) : PinsAgree (emit e d) :=
  pinsAgree_of_same h rfl (by
    show pinWrites (d.hw ++ [e]) = pinWrites d.hw
    rw [pinWrites_append, he, List.append_nil])

theorem pinsAgree_setNRF905Power (p : Nat) {d : Driver} (h : PinsAgree d) :
    PinsAgree (setNRF905Power p d) :=
  pinsAgree_of_same h rfl rfl

theorem pinsAgree_ite (c : Prop) [Decidable c] {a b : Driver} (ha : PinsAgree a)
    (hb : PinsAgree b) : PinsAgree (if c then a else b) := by
  split_ifs
  · exact ha
  · exact hb

theorem pinsAgree_nRF905Initial (env : Env) (ch sp : Int) (p : Nat) {d : Driver}
    (h : PinsAgree d) : PinsAgree (nRF905Initial env ch sp p d).2 := by
  have h1 := pinsAgree_emit (HwEvent.wiringPiSPISetup ch sp) rfl
    (pinsAgree_setNRF905Mode NRF905_MODE_STD_BY
      (pinsAgree_emit (HwEvent.pinModeInput NRF905_DR_PIN) rfl
        (pinsAgree_emit (HwEvent.pinModeOutput NRF905_PWR_UP_PIN) rfl
          (pinsAgree_emit (HwEvent.pinModeOutput NRF905_TRX_CE_PIN) rfl
            (pinsAgree_emit (HwEvent.pinModeOutput NRF905_TX_EN_PIN) rfl
              (pinsAgree_setNRF905Power p h))))))
  unfold nRF905Initial
  simp only []
  split_ifs
  · exact pinsAgree_logLine _ h1
  · exact pinsAgree_nRF905SPI_WR_CMD env _ _ _ (pinsAgree_of_same h1 rfl rfl)

theorem pinsAgree_nRF905StartListen (env : Env) (t : List Nat) (n : Int) {d : Driver}
    (h : PinsAgree d) : PinsAgree (nRF905StartListen env t n d).2 := by
  have h1 : PinsAgree
      (if d.nRF905PipeFd.1 ≠ 0 then emit (HwEvent.close d.nRF905PipeFd.1) d else d) :=
    pinsAgree_ite _ (pinsAgree_emit (HwEvent.close d.nRF905PipeFd.1) rfl h) h
  have h2 := pinsAgree_ite
    ((if d.nRF905PipeFd.1 ≠ 0 then emit (HwEvent.close d.nRF905PipeFd.1) d
      else d).nRF905PipeFd.2 ≠ 0)
    (pinsAgree_emit (HwEvent.close
      (if d.nRF905PipeFd.1 ≠ 0 then emit (HwEvent.close d.nRF905PipeFd.1) d
        else d).nRF905PipeFd.2) rfl h1) h1
  unfold nRF905StartListen
  simp only []
  split
  · exact pinsAgree_logLine _ h2
  · rename_i fds _
    have h3 : PinsAgree (regDR_Event (setNRF905Mode NRF905_MODE_BURST_RX
        (writeRxAddr env TEST_NRF905_RX_ADDR
          (writeTxAddr env TEST_NRF905_TX_ADDR
            { (if (if d.nRF905PipeFd.1 ≠ 0 then emit (HwEvent.close d.nRF905PipeFd.1) d
                  else d).nRF905PipeFd.2 ≠ 0
                then emit (HwEvent.close
                  (if d.nRF905PipeFd.1 ≠ 0 then emit (HwEvent.close d.nRF905PipeFd.1) d
                    else d).nRF905PipeFd.2)
                  (if d.nRF905PipeFd.1 ≠ 0 then emit (HwEvent.close d.nRF905PipeFd.1) d
                    else d)
                else (if d.nRF905PipeFd.1 ≠ 0 then emit (HwEvent.close d.nRF905PipeFd.1) d
                  else d)) with
              nRF905PipeFd := fds
              pRoamingTable := t
              nRoamingTableLen := n }).2).2).2) :=
      pinsAgree_emit (HwEvent.wiringPiISR NRF905_DR_PIN) rfl
        (pinsAgree_setNRF905Mode _
          (pinsAgree_nRF905SPI_WR_CMD env _ _ _
            (pinsAgree_nRF905SPI_WR_CMD env _ _ _ (pinsAgree_of_same h2 rfl rfl))))
    rw [if_neg (by decide : ¬ setChannelMonitorTimer ≠ 0)]
    exact h3

/-- Every reachable state has its pins in agreement with the recorded mode. -/
theorem pinsAgree_of_reachable {d : Driver} (hr : Reachable d) : PinsAgree d := by
  induction hr with
  | start => exact Or.inl rfl
  | setMode m _ ih => exact pinsAgree_setNRF905Mode m ih
  | spiWrCmd env c p n _ ih => exact pinsAgree_nRF905SPI_WR_CMD env c p n ih
  | readStatus env _ ih => exact pinsAgree_readStatusReg env ih
  | readPayload env p n _ ih => exact pinsAgree_readRxPayload env p n ih
  | readCfg env a p n _ ih => exact pinsAgree_readConfig env a p n ih
  | writeCfg env a p n _ ih => exact pinsAgree_nRF905SPI_WR_CMD env _ p n ih
  | writeTx env a _ ih => exact pinsAgree_nRF905SPI_WR_CMD env _ _ 4 ih
  | writeRx env a _ ih => exact pinsAgree_nRF905SPI_WR_CMD env _ _ 4 ih
  | writePayload env p n _ ih => exact pinsAgree_nRF905SPI_WR_CMD env _ p n ih
  | fastConfig env w _ ih => exact pinsAgree_writeFastConfig env w ih
  | dataReady env _ ih => exact pinsAgree_dataReadyHandler env ih
  | roam env _ hroam ih => exact pinsAgree_roamNRF905 env ih hroam
  | initial env ch sp p _ ih => exact pinsAgree_nRF905Initial env ch sp p ih
  | startListen env t n _ ih => exact pinsAgree_nRF905StartListen env t n ih
  | setPower p _ ih => exact pinsAgree_setNRF905Power p ih
  | sendFrame env p n _ ih => exact pinsAgree_nRF905SendFrame env p n ih
  | stopListen _ ih => exact pinsAgree_nRF905StopListen ih

/-- `nRF905StartListen` never writes the hopping index. -/
theorem hopping_nRF905StartListen (env : Env) (t : List Nat) (n : Int) (d : Driver) :
    (nRF905StartListen env t n d).2.nHoppingPoint = d.nHoppingPoint := by
  have h1 : (if d.nRF905PipeFd.1 ≠ 0 then emit (HwEvent.close d.nRF905PipeFd.1) d
      else d).nHoppingPoint = d.nHoppingPoint := by
    split_ifs <;> rfl
  have h2 : (if (if d.nRF905PipeFd.1 ≠ 0 then emit (HwEvent.close d.nRF905PipeFd.1) d
        else d).nRF905PipeFd.2 ≠ 0
      then emit (HwEvent.close
        (if d.nRF905PipeFd.1 ≠ 0 then emit (HwEvent.close d.nRF905PipeFd.1) d
          else d).nRF905PipeFd.2)
        (if d.nRF905PipeFd.1 ≠ 0 then emit (HwEvent.close d.nRF905PipeFd.1) d else d)
      else (if d.nRF905PipeFd.1 ≠ 0 then emit (HwEvent.close d.nRF905PipeFd.1) d
        else d)).nHoppingPoint = d.nHoppingPoint := by
    by_cases hc : (if d.nRF905PipeFd.1 ≠ 0 then emit (HwEvent.close d.nRF905PipeFd.1) d
        else d).nRF905PipeFd.2 ≠ 0
    · rw [if_pos hc]; exact h1
    · rw [if_neg hc]; exact h1
  unfold nRF905StartListen
  simp only []
  split
  · exact h2
  · rename_i fds _
    rw [if_neg (by decide : ¬ setChannelMonitorTimer ≠ 0)]
    exact (frame_setNRF905Mode _ _).hopping.trans
      ((frame_writeRxAddr env _ _).hopping.trans
        ((frame_writeTxAddr env _ _).hopping.trans h2))

/-! ## Claims -/

/-- C1 (as amended): for every 16-bit channel/power word `w`, the TX address
differs from the RX address exactly when `w` has a bit set outside `0x0060`,
that is when `w & 0xFF9F` is not zero. -/
theorem txAddr_ne_rxAddr_iff (w : Nat) (hw : w < 2 ^ 16) :
    getTxAddrFromChnPwr w ≠ getRxAddrFromChnPwr w ↔ w &&& 0xFF9F ≠ 0 :=
  not_congr (addr_eq_iff w hw)

/-- Witness for C1: the word `3 | (5 << 10)` has distinct addresses. -/
theorem txAddr_ne_rxAddr_iff_witness :
    (5123 < 2 ^ 16) ∧
    (getTxAddrFromChnPwr 5123 ≠ getRxAddrFromChnPwr 5123 ↔ 5123 &&& 0xFF9F ≠ 0) ∧
    getTxAddrFromChnPwr 5123 ≠ getRxAddrFromChnPwr 5123 :=
  ⟨by norm_num, txAddr_ne_rxAddr_iff 5123 (by norm_num),
    (txAddr_ne_rxAddr_iff 5123 (by norm_num)).mpr (by decide)⟩

/-- Counterexample to C1 as stated: the 16-bit words `0x0000` and `0x0020` each
have equal TX and RX addresses. -/
theorem txAddr_eq_rxAddr_counterexample :
    (0 < 2 ^ 16 ∧ getTxAddrFromChnPwr 0 = getRxAddrFromChnPwr 0) ∧
    (0x20 < 2 ^ 16 ∧ getTxAddrFromChnPwr 0x20 = getRxAddrFromChnPwr 0x20) := by
  decide

/-- C2 (as amended): the two masks share exactly the bits `0x002059AA`, and for
every 16-bit word `w` the bitwise AND of the TX and RX addresses is
`(w | (w << 16)) & 0x002059AA`. -/
theorem txAddr_and_rxAddr (w : Nat) (hw : w < 2 ^ 16) :
    (0xA33D59AA &&& 0x5CA259AA = 0x002059AA) ∧
    getTxAddrFromChnPwr w &&& getRxAddrFromChnPwr w = (w ||| w <<< 16) &&& 0x002059AA :=
  ⟨by decide, addr_and_eq w hw⟩

/-- Witness for C2 at the word `0xFFFF`. -/
theorem txAddr_and_rxAddr_witness :
    (0xFFFF < 2 ^ 16) ∧
    getTxAddrFromChnPwr 0xFFFF &&& getRxAddrFromChnPwr 0xFFFF
      = (0xFFFF ||| 0xFFFF <<< 16) &&& 0x002059AA :=
  ⟨by norm_num, (txAddr_and_rxAddr 0xFFFF (by norm_num)).2⟩

/-- Counterexample to C2 as stated: the masks have common bits, and at the word
`0xFFFF` the AND of the two addresses is `0x002059AA`, not `0`. -/
theorem txAddr_and_rxAddr_counterexample :
    (0xA33D59AA : Nat) &&& 0x5CA259AA ≠ 0 ∧
    0xFFFF < 2 ^ 16 ∧
    getTxAddrFromChnPwr 0xFFFF &&& getRxAddrFromChnPwr 0xFFFF = 0x002059AA := by
  decide

/-- C3 (what the code does): for a payload buffer of length `n >= 1` whose
allocation succeeds, `writeTxPayload` performs exactly one bus transaction of
`n + 1` bytes, and its leading byte is `0x00` (`NRF905_CMD_WTP & 0x0F`), not the
Write-TX-payload opcode `0x20`. -/
theorem writeTxPayload_leading_byte (env : Env) (d : Driver) (pBuff : List Nat)
    (hlen : 1 ≤ pBuff.length)
    (hmalloc : env.malloc d.hw (pBuff.length + 1) = true) :
    busTransfers (writeTxPayload env pBuff pBuff.length d).2.hw
      = busTransfers d.hw ++ [0x00 :: pBuff] := by
  have h := busTransfers_nRF905SPI_WR_CMD env (NRF905_CMD_WC (NRF905_CMD_WTP % 256)) pBuff
    pBuff.length d (by omega) (by simpa using hmalloc)
  simpa [writeTxPayload, writeConfig, readBytes_self, NRF905_CMD_WC, NRF905_CMD_WTP,
    NRF905_CMD_WC_MASK] using h

/-- Witness for C3: the one-byte payload `[0xAB]` goes out as `[0x00, 0xAB]`. -/
theorem writeTxPayload_leading_byte_witness :
    busTransfers (writeTxPayload (constEnv 0 0) [0xAB] 1 Driver.init).2.hw
      = [[0x00, 0xAB]] :=
  writeTxPayload_leading_byte (constEnv 0 0) Driver.init [0xAB] (by decide) rfl

/-- C4 (what the code does): for every word `w`, `writeFastConfig` performs one
bus transaction of exactly the two bytes of `w` itself, with no opcode byte and
without OR-ing in `0x8000`; for `w = 0` the bytes sent are `[0x00, 0x00]` while
`NRF905_CMD_CC(0)` is `0x8000`, bytes `[0x00, 0x80]`. -/
theorem writeFastConfig_sends_raw_word :
    (∀ (env : Env) (d : Driver) (w : Nat),
      busTransfers (writeFastConfig env w d).2.hw
        = busTransfers d.hw ++ [bytes16 (w % 2 ^ 16)]) ∧
    busTransfers (writeFastConfig (constEnv 0 0) 0 Driver.init).2.hw = [[0x00, 0x00]] ∧
    bytes16 (NRF905_CMD_CC 0) = [0x00, 0x80] :=
  ⟨fun env d w => busTransfers_writeFastConfig env w d,
    busTransfers_writeFastConfig (constEnv 0 0) 0 Driver.init, by decide⟩

/-- C10 (as amended): for every valid mode `m` and every starting state, the
second of two consecutive `setNRF905Mode(m)` calls returns 0, writes no pin and
changes nothing but the log; the two calls together write the three pins of
`m` once when the starting mode differs from `m`, and write no pin at all when
the starting mode already is `m`. -/
theorem setNRF905Mode_twice (m : nRF905Mode_t) (d : Driver) (hm : m < NRF905_MODE_MAX) :
    (setNRF905Mode m (setNRF905Mode m d).2).1 = 0 ∧
    (setNRF905Mode m (setNRF905Mode m d).2).2
      = logLine (LogEntry.info "nRF905 Mode not changed, no need to set pin.")
          (setNRF905Mode m d).2 ∧
    (setNRF905Mode m (setNRF905Mode m d).2).2.hw = (setNRF905Mode m d).2.hw ∧
    (setNRF905Mode m (setNRF905Mode m d).2).2.tNRF905Status
      = (setNRF905Mode m d).2.tNRF905Status ∧
    (m ≠ d.tNRF905Status.tNRF905CurrentMode →
      ∃ lv, unNRF905MODE_PIN_LEVEL.get? m = some lv ∧
        pinWrites (setNRF905Mode m (setNRF905Mode m d).2).2.hw = pinWrites d.hw ++
          [(NRF905_TX_EN_PIN, lv.nTX_EN_PIN), (NRF905_TRX_CE_PIN, lv.nTRX_CE_PIN),
           (NRF905_PWR_UP_PIN, lv.nPWR_UP_PIN)]) ∧
    (m = d.tNRF905Status.tNRF905CurrentMode →
      pinWrites (setNRF905Mode m (setNRF905Mode m d).2).2.hw = pinWrites d.hw) := by
  have h2 := setNRF905Mode_of_eq m (setNRF905Mode m d).2 hm (mode_setNRF905Mode m d hm).symm
  rw [h2]
  refine ⟨rfl, rfl, rfl, rfl, ?_, ?_⟩
  · intro hne
    have hlt : m < unNRF905MODE_PIN_LEVEL.length := hm
    refine ⟨unNRF905MODE_PIN_LEVEL.get ⟨m, hlt⟩, List.get?_eq_get hlt, ?_⟩
    exact pinWrites_setNRF905Mode_change m d _ (List.get?_eq_get hlt) hne
  · intro he
    rw [setNRF905Mode_of_eq m d hm he]
    rfl

/-- Witness for C10: from the initial state (mode PowerDown), two calls with
BurstReceive write the pins TX_EN, TRX_CE, PWR_UP once, as LOW, HIGH, HIGH. -/
theorem setNRF905Mode_twice_witness :
    NRF905_MODE_BURST_RX < NRF905_MODE_MAX ∧
    (setNRF905Mode NRF905_MODE_BURST_RX
        (setNRF905Mode NRF905_MODE_BURST_RX Driver.init).2).1 = 0 ∧
    pinWrites (setNRF905Mode NRF905_MODE_BURST_RX
        (setNRF905Mode NRF905_MODE_BURST_RX Driver.init).2).2.hw
      = [(0, PinLevel.LOW), (2, PinLevel.HIGH), (3, PinLevel.HIGH)] := by
  have h := setNRF905Mode_twice NRF905_MODE_BURST_RX Driver.init (by decide)
  obtain ⟨lv, hlv, hw⟩ := h.2.2.2.2.1 (by decide)
  have hlv2 : lv = ⟨PinLevel.HIGH, PinLevel.HIGH, PinLevel.LOW⟩ := by
    have : unNRF905MODE_PIN_LEVEL.get? NRF905_MODE_BURST_RX
        = some ⟨PinLevel.HIGH, PinLevel.HIGH, PinLevel.LOW⟩ := rfl
    rw [this] at hlv
    exact (Option.some.inj hlv).symm
  subst hlv2
  exact ⟨by decide, h.1, hw⟩

/-- Counterexample to C10 as stated: starting in PowerDown, two consecutive
`setNRF905Mode(PowerDown)` calls both return 0 and write no pin at all, so the
two calls perform zero pin-level write sequences, not one. -/
theorem setNRF905Mode_twice_counterexample :
    NRF905_MODE_PWR_DOWN < NRF905_MODE_MAX ∧
    (setNRF905Mode NRF905_MODE_PWR_DOWN Driver.init).1 = 0 ∧
    (setNRF905Mode NRF905_MODE_PWR_DOWN
      (setNRF905Mode NRF905_MODE_PWR_DOWN Driver.init).2).1 = 0 ∧
    pinWrites (setNRF905Mode NRF905_MODE_PWR_DOWN
      (setNRF905Mode NRF905_MODE_PWR_DOWN Driver.init).2).2.hw = [] := by
  decide

/-- C5 (as amended): when `dataReadyHandler` runs with the recorded mode
BurstReceive and the status readback has bit 5 (data ready) set, it performs
the status read and then exactly one RX-payload read (opcode `0x21` followed by
32 bytes), leaves `receivedFrameCount` and the rest of the status record
unchanged, and leaves the recorded mode at BurstReceive. -/
theorem dataReadyHandler_rx_confirmed (env : Env) (d : Driver)
    (hmode : d.tNRF905Status.tNRF905CurrentMode = NRF905_MODE_BURST_RX)
    (hbit : NRF905_DR_IN_STATUS_REG
      (readStatusReg env (setNRF905Mode NRF905_MODE_STD_BY d).2).1.toNat ≠ 0) :
    busTransfers (dataReadyHandler env d).hw = busTransfers d.hw ++
      [[0x11], 0x21 :: (List.range 32).map (fun k => env.memory (k + 1) % 256)] ∧
    (dataReadyHandler env d).tNRF905Status.unNRF905RecvFrameCNT
      = d.tNRF905Status.unNRF905RecvFrameCNT ∧
    (dataReadyHandler env d).tNRF905Status.tNRF905CurrentMode = NRF905_MODE_BURST_RX ∧
    (dataReadyHandler env d).tNRF905Status = d.tNRF905Status := by
  have key : Frame d (dataReadyHandler env d) ∧
      (dataReadyHandler env d).tNRF905Status.tNRF905CurrentMode = NRF905_MODE_BURST_RX := by
    rw [dataReadyHandler_rx_read env d hmode (fun h => hbit h.2)]
    exact ⟨(frame_setNRF905Mode _ d).trans
      ((frame_readStatusReg env _).trans
        ((frame_storeStatusReg _ _).trans
          ((frame_readRxPayload env _ _ _).trans
            ((frame_storeReadBuff _ _).trans (frame_setNRF905Mode _ _))))),
      mode_setNRF905Mode _ _ (by decide)⟩
  refine ⟨?_, key.1.recv, key.2, key.1.status_eq (key.2.trans hmode.symm)⟩
  rw [dataReadyHandler_rx_read env d hmode (fun h => hbit h.2), busTransfers_setNRF905Mode]
  show busTransfers (readRxPayload env _ 32 _).2.2.hw = _
  rw [busTransfers_readRxPayload env _ 32 _ (by decide)]
  show busTransfers (readStatusReg env _).2.hw ++ _ = _
  rw [busTransfers_readStatusReg, busTransfers_setNRF905Mode, List.append_assoc]
  rfl

/-- Witness for C5: the device answers the status read with `0x20` (bit 5 set). -/
theorem dataReadyHandler_rx_confirmed_witness :
    NRF905_DR_IN_STATUS_REG (readStatusReg (constEnv 0 0x20)
      (setNRF905Mode NRF905_MODE_STD_BY (Driver.inMode NRF905_MODE_BURST_RX)).2).1.toNat ≠ 0 ∧
    (dataReadyHandler (constEnv 0 0x20)
        (Driver.inMode NRF905_MODE_BURST_RX)).tNRF905Status.unNRF905RecvFrameCNT = 0 ∧
    (dataReadyHandler (constEnv 0 0x20)
        (Driver.inMode NRF905_MODE_BURST_RX)).tNRF905Status.tNRF905CurrentMode
      = NRF905_MODE_BURST_RX :=
  have h := dataReadyHandler_rx_confirmed (constEnv 0 0x20)
    (Driver.inMode NRF905_MODE_BURST_RX) rfl (by decide)
  ⟨by decide, h.2.1, h.2.2.1⟩

/-- Counterexample to C5 as stated: in BurstReceive, with the status read
succeeding and returning `0x20` (data ready set), the handler leaves
`receivedFrameCount` at 0 instead of incrementing it to 1. -/
theorem dataReadyHandler_rx_confirmed_counterexample :
    (Driver.inMode NRF905_MODE_BURST_RX).tNRF905Status.tNRF905CurrentMode
      = NRF905_MODE_BURST_RX ∧
    (readStatusReg (constEnv 0 0x20)
      (setNRF905Mode NRF905_MODE_STD_BY (Driver.inMode NRF905_MODE_BURST_RX)).2).1 = 0x20 ∧
    NRF905_DR_IN_STATUS_REG 0x20 ≠ 0 ∧
    (Driver.inMode NRF905_MODE_BURST_RX).tNRF905Status.unNRF905RecvFrameCNT = 0 ∧
    (dataReadyHandler (constEnv 0 0x20)
      (Driver.inMode NRF905_MODE_BURST_RX)).tNRF905Status.unNRF905RecvFrameCNT ≠ 0 + 1 := by
  decide

/-- C6 (as amended): when `dataReadyHandler` runs with the recorded mode
BurstReceive and the status register is read successfully with bit 5 (data
ready) clear, the handler logs the inconsistency and does not read the RX
payload: the status read is its only bus transaction. It then returns the
recorded mode to BurstReceive, the status record being as before. -/
theorem dataReadyHandler_rx_unconfirmed (env : Env) (d : Driver)
    (hmode : d.tNRF905Status.tNRF905CurrentMode = NRF905_MODE_BURST_RX)
    (hok : (readStatusReg env (setNRF905Mode NRF905_MODE_STD_BY d).2).1 ≥ 0)
    (hbit : NRF905_DR_IN_STATUS_REG
      (readStatusReg env (setNRF905Mode NRF905_MODE_STD_BY d).2).1.toNat = 0) :
    busTransfers (dataReadyHandler env d).hw = busTransfers d.hw ++ [[0x11]] ∧
    LogEntry.err "Strange happens. DR pin set but status register not."
      ∈ (dataReadyHandler env d).log ∧
    (dataReadyHandler env d).tNRF905Status.tNRF905CurrentMode = NRF905_MODE_BURST_RX ∧
    (dataReadyHandler env d).tNRF905Status = d.tNRF905Status := by
  have key : Frame d (dataReadyHandler env d) ∧
      (dataReadyHandler env d).tNRF905Status.tNRF905CurrentMode = NRF905_MODE_BURST_RX := by
    rw [dataReadyHandler_rx_skip env d hmode ⟨hok, hbit⟩]
    exact ⟨(frame_setNRF905Mode _ d).trans
      ((frame_readStatusReg env _).trans
        ((frame_storeStatusReg _ _).trans
          ((frame_logLine _ _).trans (frame_setNRF905Mode _ _)))),
      mode_setNRF905Mode _ _ (by decide)⟩
  refine ⟨?_, ?_, key.2, key.1.status_eq (key.2.trans hmode.symm)⟩
  · rw [dataReadyHandler_rx_skip env d hmode ⟨hok, hbit⟩, busTransfers_setNRF905Mode]
    show busTransfers (readStatusReg env _).2.hw = _
    rw [busTransfers_readStatusReg, busTransfers_setNRF905Mode]
  · rw [dataReadyHandler_rx_skip env d hmode ⟨hok, hbit⟩]
    apply log_setNRF905Mode
    simp [logLine]

/-- Witness for C6: the device answers the status read with `0x00`, result 0. -/
theorem dataReadyHandler_rx_unconfirmed_witness :
    (readStatusReg (constEnv 0 0)
      (setNRF905Mode NRF905_MODE_STD_BY (Driver.inMode NRF905_MODE_BURST_RX)).2).1 = 0 ∧
    busTransfers (dataReadyHandler (constEnv 0 0) (Driver.inMode NRF905_MODE_BURST_RX)).hw
      = [[0x11]] ∧
    (dataReadyHandler (constEnv 0 0)
        (Driver.inMode NRF905_MODE_BURST_RX)).tNRF905Status.tNRF905CurrentMode
      = NRF905_MODE_BURST_RX :=
  have h := dataReadyHandler_rx_unconfirmed (constEnv 0 0)
    (Driver.inMode NRF905_MODE_BURST_RX) rfl (by decide) (by decide)
  ⟨by decide, h.1, h.2.2.1⟩

/-- Counterexample to C6 as stated: in BurstReceive, with the status read
succeeding (result 0) and returning `0x00` (data ready clear), the handler's
only bus transaction is the status read; no transaction starts with the
RX-payload opcode `0x21`. -/
theorem dataReadyHandler_rx_unconfirmed_counterexample :
    (Driver.inMode NRF905_MODE_BURST_RX).tNRF905Status.tNRF905CurrentMode
      = NRF905_MODE_BURST_RX ∧
    (readStatusReg (constEnv 0 0)
      (setNRF905Mode NRF905_MODE_STD_BY (Driver.inMode NRF905_MODE_BURST_RX)).2).1 = 0 ∧
    NRF905_DR_IN_STATUS_REG 0 = 0 ∧
    busTransfers (dataReadyHandler (constEnv 0 0) (Driver.inMode NRF905_MODE_BURST_RX)).hw
      = [[0x11]] ∧
    ¬ ∃ t ∈ busTransfers
        (dataReadyHandler (constEnv 0 0) (Driver.inMode NRF905_MODE_BURST_RX)).hw,
      t.head? = some NRF905_CMD_RTP := by
  decide

/-- C7 (as amended): `readConfig` and `readRxPayload` return -1 and leave the
caller's buffer and the whole driver state untouched (so no bus transaction)
whenever the length is outside `[1, 32]`; `writeConfig`, `writeTxPayload` and
`nRF905SPI_WR_CMD` return -1 and leave the whole driver state untouched whenever
the length is zero or negative. -/
theorem codec_length_guard (env : Env) (d : Driver) (unConfigAddr : Nat)
    (pBuff : List Nat) (nBuffLen : Int) :
    ((nBuffLen ≤ 0 ∨ 33 ≤ nBuffLen) →
      readConfig env unConfigAddr pBuff nBuffLen d = (-1, pBuff, d) ∧
      readRxPayload env pBuff nBuffLen d = (-1, pBuff, d)) ∧
    (nBuffLen ≤ 0 →
      writeConfig env unConfigAddr pBuff nBuffLen d = (-1, d) ∧
      writeTxPayload env pBuff nBuffLen d = (-1, d) ∧
      nRF905SPI_WR_CMD env unConfigAddr pBuff nBuffLen d = (-1, d)) := by
  constructor
  · intro h
    have hc : ¬ (nBuffLen > 0 ∧ nBuffLen < 33) := by omega
    exact ⟨by unfold readConfig; rw [if_neg hc], by unfold readRxPayload; rw [if_neg hc]⟩
  · intro h
    have hc : ¬ (nBuffLen > 0) := by omega
    have hw : ∀ c, nRF905SPI_WR_CMD env c pBuff nBuffLen d = (-1, d) := by
      intro c
      unfold nRF905SPI_WR_CMD
      rw [if_neg hc]
    exact ⟨hw _, hw _, hw _⟩

/-- Witness for C7: reads of length 0, -1 and 33, writes of length 0 and -1. -/
theorem codec_length_guard_witness :
    readConfig (constEnv 0 0) 0 [1, 2] 33 Driver.init = (-1, [1, 2], Driver.init) ∧
    readRxPayload (constEnv 0 0) [1, 2] 0 Driver.init = (-1, [1, 2], Driver.init) ∧
    readRxPayload (constEnv 0 0) [1, 2] (-1) Driver.init = (-1, [1, 2], Driver.init) ∧
    writeConfig (constEnv 0 0) 0 [1, 2] 0 Driver.init = (-1, Driver.init) ∧
    writeTxPayload (constEnv 0 0) [1, 2] (-1) Driver.init = (-1, Driver.init) :=
  ⟨((codec_length_guard (constEnv 0 0) Driver.init 0 [1, 2] 33).1 (by decide)).1,
   ((codec_length_guard (constEnv 0 0) Driver.init 0 [1, 2] 0).1 (by decide)).2,
   ((codec_length_guard (constEnv 0 0) Driver.init 0 [1, 2] (-1)).1 (by decide)).2,
   ((codec_length_guard (constEnv 0 0) Driver.init 0 [1, 2] 0).2 (by decide)).1,
   ((codec_length_guard (constEnv 0 0) Driver.init 0 [1, 2] (-1)).2 (by decide)).2.1⟩

/-- Counterexample to C7 as stated: with a 33-byte buffer and length 33,
`writeConfig` and `writeTxPayload` do not fail; each returns the bus result 0
and performs a 34-byte bus transaction. -/
theorem codec_length_guard_counterexample :
    ¬ ((1 : Int) ≤ 33 ∧ (33 : Int) ≤ 32) ∧
    (writeConfig (constEnv 0 0) 0 (List.replicate 33 7) 33 Driver.init).1 = 0 ∧
    busTransfers (writeConfig (constEnv 0 0) 0 (List.replicate 33 7) 33 Driver.init).2.hw
      = [0 :: List.replicate 33 7] ∧
    (writeTxPayload (constEnv 0 0) (List.replicate 33 7) 33 Driver.init).1 = 0 ∧
    busTransfers (writeTxPayload (constEnv 0 0) (List.replicate 33 7) 33 Driver.init).2.hw
      = [0 :: List.replicate 33 7] := by
  decide

/-- C8: for every hopping table of length `L >= 1` and every starting roaming
index `i < L`, `L` consecutive calls of `roamNRF905` all return, the roaming
index is `i` again afterwards and the hop counter has grown by exactly `L`
modulo `2 ^ 32`. -/
theorem roamNRF905_cycle (env : Env) (d : Driver) (L i : Nat) (hL : 1 ≤ L)
    (hlen : d.pRoamingTable.length = L) (hn : d.nRoamingTableLen = (L : Int))
    (hidx : d.nHoppingPoint = (i : Int)) (hi : i < L) :
    ∃ d', roamTimes env L d = some d' ∧
      d'.nHoppingPoint = (i : Int) ∧
      d'.tNRF905Status.unNRF905HoppingCNT
        = (d.tNRF905Status.unNRF905HoppingCNT + L) % 2 ^ 32 := by
  obtain ⟨k, rfl⟩ : ∃ k, L = k + 1 := ⟨L - 1, by omega⟩
  obtain ⟨d1, h0, -, -, -, -, h5, h6, h7, h8, -⟩ :=
    roamNRF905_step env d (k + 1) i hlen hn hidx (hlen ▸ hi)
  obtain ⟨d2, g0, g1, g2, -, -, -⟩ :=
    roamTimes_spec env (k + 1) k d1 ((i + 1) % (k + 1)) (h7 ▸ hlen) (h8 ▸ hn) h5
      (Nat.mod_lt _ (by omega)) (h6 ▸ Nat.mod_lt _ (by norm_num))
  refine ⟨d2, ?_, ?_, ?_⟩
  · show (roamNRF905 env d).bind (roamTimes env k) = some d2
    rw [h0]; exact g0
  · rw [g1, Nat.mod_add_mod]
    have : i + 1 + k = i + (k + 1) := by omega
    rw [this, Nat.add_mod_right, Nat.mod_eq_of_lt hi]
  · rw [g2, h6, Nat.mod_add_mod]
    congr 1
    omega

/-- Witness for C8: the table `[3, 17, 42]`, starting at index 1 with the hop
counter at its maximum `2 ^ 32 - 1`; after three roams the index is 1 again and
the counter has wrapped to 2. -/
theorem roamNRF905_cycle_witness :
    ∃ d', roamTimes (constEnv 0 0) 3 roamStart = some d' ∧
      d'.nHoppingPoint = 1 ∧ d'.tNRF905Status.unNRF905HoppingCNT = 2 :=
  roamNRF905_cycle (constEnv 0 0) roamStart 3 1 (by decide) rfl rfl rfl (by decide)

/-- C9: for every hopping table of length `L >= 1`, current power `p` and roaming
index `i < L`, one call of `roamNRF905` returns, stores the channel/power word
`(t[i] | (p << 10))` truncated to 16 bits, stores the TX and RX addresses
derived from that stored word, advances the index to `(i + 1) mod L`, and ends
with the recorded mode BurstReceive. Hence with table `[3, 17, 42]` and power
5, three successive roams from index 0 store the words `3 | (5 << 10)`,
`17 | (5 << 10)` and `42 | (5 << 10)` in that order, each with the addresses
derived from it. -/
theorem roamNRF905_stores :
    (∀ (env : Env) (d : Driver) (L i : Nat) (_ : 1 ≤ L)
        (_ : d.pRoamingTable.length = L) (_ : d.nRoamingTableLen = (L : Int))
        (_ : d.nHoppingPoint = (i : Int)) (hi : i < d.pRoamingTable.length),
      ∃ d', roamNRF905 env d = some d' ∧
        d'.tNRF905Status.unNRF905CHN_PWR
          = (d.pRoamingTable[i] ||| (d.unNRF905Power <<< 10)) % 2 ^ 16 ∧
        d'.tNRF905Status.unNRF905TxAddr
          = getTxAddrFromChnPwr d'.tNRF905Status.unNRF905CHN_PWR ∧
        d'.tNRF905Status.unNRF905RxAddr
          = getRxAddrFromChnPwr d'.tNRF905Status.unNRF905CHN_PWR ∧
        d'.nHoppingPoint = (((i + 1) % L : Nat) : Int) ∧
        d'.tNRF905Status.tNRF905CurrentMode = NRF905_MODE_BURST_RX) ∧
    (∀ (env : Env) (d : Driver), d.pRoamingTable = [3, 17, 42] → d.nRoamingTableLen = 3 →
        d.unNRF905Power = 5 → d.nHoppingPoint = 0 →
      ∃ d1 d2 d3, roamNRF905 env d = some d1 ∧ roamNRF905 env d1 = some d2 ∧
        roamNRF905 env d2 = some d3 ∧
        d1.tNRF905Status.unNRF905CHN_PWR = 3 ||| (5 <<< 10) ∧
        d2.tNRF905Status.unNRF905CHN_PWR = 17 ||| (5 <<< 10) ∧
        d3.tNRF905Status.unNRF905CHN_PWR = 42 ||| (5 <<< 10) ∧
        d1.tNRF905Status.unNRF905TxAddr = getTxAddrFromChnPwr (3 ||| (5 <<< 10)) ∧
        d1.tNRF905Status.unNRF905RxAddr = getRxAddrFromChnPwr (3 ||| (5 <<< 10)) ∧
        d2.tNRF905Status.unNRF905TxAddr = getTxAddrFromChnPwr (17 ||| (5 <<< 10)) ∧
        d2.tNRF905Status.unNRF905RxAddr = getRxAddrFromChnPwr (17 ||| (5 <<< 10)) ∧
        d3.tNRF905Status.unNRF905TxAddr = getTxAddrFromChnPwr (42 ||| (5 <<< 10)) ∧
        d3.tNRF905Status.unNRF905RxAddr = getRxAddrFromChnPwr (42 ||| (5 <<< 10)) ∧
        d3.nHoppingPoint = 0) := by
  constructor
  · intro env d L i _ hlen hn hidx hi
    obtain ⟨d', h0, h1, h2, h3, h4, h5, -, -, -, -⟩ :=
      roamNRF905_step env d L i hlen hn hidx hi
    exact ⟨d', h0, h2, h3, h4, h5, h1⟩
  · intro env d ht hn hp hidx
    obtain ⟨d1, a0, -, a2, a3, a4, a5, -, a7, a8, a9⟩ :=
      roamNRF905_step env d 3 0 (by rw [ht]; rfl) hn hidx (by rw [ht]; decide)
    obtain ⟨d2, b0, -, b2, b3, b4, b5, -, b7, b8, b9⟩ :=
      roamNRF905_step env d1 3 1 (by rw [a7, ht]; rfl) (a8.trans hn) a5
        (by rw [a7, ht]; decide)
    obtain ⟨d3, c0, -, c2, c3, c4, c5, -, -, -, -⟩ :=
      roamNRF905_step env d2 3 2 (by rw [b7, a7, ht]; rfl) ((b8.trans a8).trans hn) b5
        (by rw [b7, a7, ht]; decide)
    have w1 : d1.tNRF905Status.unNRF905CHN_PWR = 3 ||| (5 <<< 10) := by
      rw [a2]; simp [ht, hp, GET_CHN_PWR_FAST_CONFIG]
    have w2 : d2.tNRF905Status.unNRF905CHN_PWR = 17 ||| (5 <<< 10) := by
      rw [b2]; simp [a7, a9, ht, hp, GET_CHN_PWR_FAST_CONFIG]
    have w3 : d3.tNRF905Status.unNRF905CHN_PWR = 42 ||| (5 <<< 10) := by
      rw [c2]; simp [b7, b9, a7, a9, ht, hp, GET_CHN_PWR_FAST_CONFIG]
    exact ⟨d1, d2, d3, a0, b0, c0, w1, w2, w3, w1 ▸ a3, w1 ▸ a4, w2 ▸ b3, w2 ▸ b4,
      w3 ▸ c3, w3 ▸ c4, c5⟩

/-- Witness for C9: the table `[3, 17, 42]` with power 5, from index 1: the roam
returns, stores the word `17 | (5 << 10) = 5137` and moves the index to 2. -/
theorem roamNRF905_stores_witness :
    ∃ d', roamNRF905 (constEnv 0 0) roamStart = some d' ∧
      d'.tNRF905Status.unNRF905CHN_PWR = 5137 ∧
      d'.tNRF905Status.unNRF905TxAddr = getTxAddrFromChnPwr d'.tNRF905Status.unNRF905CHN_PWR ∧
      d'.tNRF905Status.unNRF905RxAddr = getRxAddrFromChnPwr d'.tNRF905Status.unNRF905CHN_PWR ∧
      d'.nHoppingPoint = 2 ∧
      d'.tNRF905Status.tNRF905CurrentMode = NRF905_MODE_BURST_RX :=
  roamNRF905_stores.1 (constEnv 0 0) roamStart 3 1 (by decide) rfl rfl rfl (by decide)

/-- C12: for every 16-bit word `w`, `getTxAddrFromChnPwr(w)` equals
`(w | (w << 16)) & 0xA33D59AA` and `getRxAddrFromChnPwr(w)` equals
`(w | (w << 16)) & 0x5CA259AA`, both being 32-bit values; each is a function of
`w` alone (the two functions take no other argument and read no state). -/
theorem addr_formula (w : Nat) (hw : w < 2 ^ 16) :
    getTxAddrFromChnPwr w = (w ||| w <<< 16) &&& 0xA33D59AA ∧
    getRxAddrFromChnPwr w = (w ||| w <<< 16) &&& 0x5CA259AA ∧
    (w ||| w <<< 16) < 2 ^ 32 ∧
    getTxAddrFromChnPwr w < 2 ^ 32 ∧ getRxAddrFromChnPwr w < 2 ^ 32 := by
  refine ⟨getTxAddrFromChnPwr_eq w hw, getRxAddrFromChnPwr_eq w hw, ?_, ?_, ?_⟩
  · exact Nat.or_lt_two_pow (by omega) (shiftLeft16_lt w hw)
  · rw [getTxAddrFromChnPwr_eq w hw]
    exact lt_of_le_of_lt Nat.and_le_right (by norm_num)
  · rw [getRxAddrFromChnPwr_eq w hw]
    exact lt_of_le_of_lt Nat.and_le_right (by norm_num)

/-- Witness for C12 at the word `3 | (5 << 10) = 5123`. -/
theorem addr_formula_witness :
    getTxAddrFromChnPwr 5123 = (5123 ||| 5123 <<< 16) &&& 0xA33D59AA ∧
    getRxAddrFromChnPwr 5123 = (5123 ||| 5123 <<< 16) &&& 0x5CA259AA :=
  ⟨(addr_formula 5123 (by norm_num)).1, (addr_formula 5123 (by norm_num)).2.1⟩

/-- C15: when `dataReadyHandler` runs with the recorded mode BurstTransmit, it
does exactly `setNRF905Mode(BurstReceive)`: the recorded mode afterwards is
BurstReceive, every counter and address field and the channel/power word are
unchanged, and no bus transaction is performed. -/
theorem dataReadyHandler_in_tx (env : Env) (d : Driver)
    (hmode : d.tNRF905Status.tNRF905CurrentMode = NRF905_MODE_BURST_TX) :
    (dataReadyHandler env d).tNRF905Status.tNRF905CurrentMode = NRF905_MODE_BURST_RX ∧
    (dataReadyHandler env d).tNRF905Status.unNRF905RecvFrameCNT
      = d.tNRF905Status.unNRF905RecvFrameCNT ∧
    (dataReadyHandler env d).tNRF905Status.unNRF905SendFrameCNT
      = d.tNRF905Status.unNRF905SendFrameCNT ∧
    (dataReadyHandler env d).tNRF905Status.unNRF905HoppingCNT
      = d.tNRF905Status.unNRF905HoppingCNT ∧
    (dataReadyHandler env d).tNRF905Status.unNRF905TxAddr
      = d.tNRF905Status.unNRF905TxAddr ∧
    (dataReadyHandler env d).tNRF905Status.unNRF905RxAddr
      = d.tNRF905Status.unNRF905RxAddr ∧
    (dataReadyHandler env d).tNRF905Status.unNRF905CHN_PWR
      = d.tNRF905Status.unNRF905CHN_PWR ∧
    busTransfers (dataReadyHandler env d).hw = busTransfers d.hw := by
  rw [dataReadyHandler_tx env d hmode]
  have f := frame_setNRF905Mode NRF905_MODE_BURST_RX d
  exact ⟨mode_setNRF905Mode _ d (by decide), f.recv, f.send, f.hop, f.txAddr, f.rxAddr,
    f.chnPwr, busTransfers_setNRF905Mode _ d⟩

/-- Witness for C15: the initial state put in BurstTransmit. -/
theorem dataReadyHandler_in_tx_witness :
    (dataReadyHandler (constEnv 0 0)
        (Driver.inMode NRF905_MODE_BURST_TX)).tNRF905Status.tNRF905CurrentMode
      = NRF905_MODE_BURST_RX ∧
    (dataReadyHandler (constEnv 0 0)
        (Driver.inMode NRF905_MODE_BURST_TX)).tNRF905Status.unNRF905RecvFrameCNT = 0 ∧
    busTransfers (dataReadyHandler (constEnv 0 0) (Driver.inMode NRF905_MODE_BURST_TX)).hw
      = [] :=
  have h := dataReadyHandler_in_tx (constEnv 0 0) (Driver.inMode NRF905_MODE_BURST_TX) rfl
  ⟨h.1, h.2.1, h.2.2.2.2.2.2.2⟩

/-- C16: when `dataReadyHandler` runs with the recorded mode PowerDown or
Standby, it only writes the error line: the whole status record is unchanged
and the record of hardware calls is unchanged, so no pin is written and no bus
transaction is made. -/
theorem dataReadyHandler_idle (env : Env) (d : Driver)
    (hmode : d.tNRF905Status.tNRF905CurrentMode = NRF905_MODE_PWR_DOWN ∨
      d.tNRF905Status.tNRF905CurrentMode = NRF905_MODE_STD_BY) :
    dataReadyHandler env d
      = logLine (LogEntry.err "Data ready pin was set but status is neither TX nor RX.") d ∧
    (dataReadyHandler env d).tNRF905Status = d.tNRF905Status ∧
    (dataReadyHandler env d).hw = d.hw ∧
    pinWrites (dataReadyHandler env d).hw = pinWrites d.hw ∧
    busTransfers (dataReadyHandler env d).hw = busTransfers d.hw := by
  have h : dataReadyHandler env d
      = logLine (LogEntry.err "Data ready pin was set but status is neither TX nor RX.") d := by
    apply dataReadyHandler_other
    · rcases hmode with h | h <;> rw [h] <;> decide
    · rcases hmode with h | h <;> rw [h] <;> decide
  rw [h]
  exact ⟨rfl, rfl, rfl, rfl, rfl⟩

/-- Witness for C16: the initial state, whose mode is PowerDown. -/
theorem dataReadyHandler_idle_witness :
    (dataReadyHandler (constEnv 0 0) Driver.init).tNRF905Status = Driver.init.tNRF905Status ∧
    (dataReadyHandler (constEnv 0 0) Driver.init).hw = [] :=
  have h := dataReadyHandler_idle (constEnv 0 0) Driver.init (Or.inl rfl)
  ⟨h.2.1, h.2.2.1⟩

/-- C18: for every mode value at or above `NRF905_MODE_MAX` and every starting
state, `setNRF905Mode` returns -1, makes no hardware call (so writes no pin) and
leaves the status record, hence the recorded mode, unchanged; for every valid
target it returns 0. -/
theorem setNRF905Mode_range (m : nRF905Mode_t) (d : Driver) :
    (m ≥ NRF905_MODE_MAX →
      (setNRF905Mode m d).1 = -1 ∧
      (setNRF905Mode m d).2.hw = d.hw ∧
      pinWrites (setNRF905Mode m d).2.hw = pinWrites d.hw ∧
      (setNRF905Mode m d).2.tNRF905Status = d.tNRF905Status ∧
      (setNRF905Mode m d).2.tNRF905Status.tNRF905CurrentMode
        = d.tNRF905Status.tNRF905CurrentMode) ∧
    (m < NRF905_MODE_MAX → (setNRF905Mode m d).1 = 0) := by
  constructor
  · intro hm
    rw [setNRF905Mode_invalid m d hm]
    exact ⟨rfl, rfl, rfl, rfl, rfl⟩
  · exact setNRF905Mode_valid_result m d

/-- Witness for C18: the targets 4 and 7 fail on the initial state, the target
BurstTransmit succeeds. -/
theorem setNRF905Mode_range_witness :
    (setNRF905Mode 4 Driver.init).1 = -1 ∧
    (setNRF905Mode 7 Driver.init).2.tNRF905Status.tNRF905CurrentMode = NRF905_MODE_PWR_DOWN ∧
    pinWrites (setNRF905Mode 7 Driver.init).2.hw = [] ∧
    (setNRF905Mode NRF905_MODE_BURST_TX Driver.init).1 = 0 :=
  ⟨((setNRF905Mode_range 4 Driver.init).1 (by decide)).1,
   ((setNRF905Mode_range 7 Driver.init).1 (by decide)).2.2.2.2,
   ((setNRF905Mode_range 7 Driver.init).1 (by decide)).2.2.1,
   (setNRF905Mode_range NRF905_MODE_BURST_TX Driver.init).2 (by decide)⟩

/-- C20 (as amended): for every channel number `c` below 512 and every 8-bit
power level `p`, the stored 16-bit word `(c | (p << 10)) mod 2^16` has its low
9 bits equal to `c`, bit 9 clear, and the bits from 10 up equal to `p mod 64`;
so `c` is recovered as `w & 0x01FF`, and `p` is recovered as `w >> 10` when
`p < 64`, in which case the truncation changes nothing. -/
theorem chnPwr_word_fields (c p : Nat) (hc : c < 512) (hp : p < 256) :
    (GET_CHN_PWR_FAST_CONFIG c p % 2 ^ 16) &&& CH_MSK_IN_CC_REG = c ∧
    (GET_CHN_PWR_FAST_CONFIG c p % 2 ^ 16).testBit 9 = false ∧
    (GET_CHN_PWR_FAST_CONFIG c p % 2 ^ 16) >>> 10 = p % 64 ∧
    (p < 64 → (GET_CHN_PWR_FAST_CONFIG c p % 2 ^ 16) >>> 10 = p ∧
      GET_CHN_PWR_FAST_CONFIG c p % 2 ^ 16 = GET_CHN_PWR_FAST_CONFIG c p) := by
  rw [GET_CHN_PWR_FAST_CONFIG_eq_add c p (by omega)]
  have hmask : CH_MSK_IN_CC_REG = 2 ^ 9 - 1 := by decide
  refine ⟨?_, ?_, ?_, ?_⟩
  · rw [hmask, Nat.and_pow_two_sub_one_eq_mod]
    omega
  · rw [Nat.testBit_to_div_mod, decide_eq_false_iff_not]
    omega
  · rw [Nat.shiftRight_eq_div_pow]
    omega
  · intro h64
    rw [Nat.shiftRight_eq_div_pow]
    omega

/-- Witness for C20: channel 3 with power 5 gives the word 5123. -/
theorem chnPwr_word_fields_witness :
    (GET_CHN_PWR_FAST_CONFIG 3 5 % 2 ^ 16) &&& CH_MSK_IN_CC_REG = 3 ∧
    (GET_CHN_PWR_FAST_CONFIG 3 5 % 2 ^ 16) >>> 10 = 5 :=
  ⟨(chnPwr_word_fields 3 5 (by decide) (by decide)).1,
   ((chnPwr_word_fields 3 5 (by decide) (by decide)).2.2.2 (by decide)).1⟩

/-- Counterexample to C20 as stated: for channel 3 and power 5 the bits above the
low 9 are `5123 >> 9 = 10`, not 5; for channel 512 the low 9 bits are 0, not the
channel; and the 8-bit powers 64 and 0 give the same stored word, so the power
cannot be recovered from it. -/
theorem chnPwr_word_fields_counterexample :
    (GET_CHN_PWR_FAST_CONFIG 3 5 % 2 ^ 16) >>> 9 ≠ 5 ∧
    (GET_CHN_PWR_FAST_CONFIG 512 0 % 2 ^ 16) &&& CH_MSK_IN_CC_REG ≠ 512 ∧
    (64 < 256 ∧
      GET_CHN_PWR_FAST_CONFIG 3 64 % 2 ^ 16 = GET_CHN_PWR_FAST_CONFIG 3 0 % 2 ^ 16) := by
  decide

/-- C13 (as amended): every `nRF905SendFrame` call, whether or not its payload
write succeeded, increases `sentFrameCount` by exactly 1 modulo `2 ^ 32` and
leaves `receivedFrameCount` and `hopCount` unchanged; a roam, the data-ready
handler and a mode change leave both `sentFrameCount` and `receivedFrameCount`
unchanged. -/
theorem frame_counters (env : Env) (d : Driver) (pReadBuff : List Nat) (nBuffLen : Int) :
    ((nRF905SendFrame env pReadBuff nBuffLen d).2.tNRF905Status.unNRF905SendFrameCNT
        = (d.tNRF905Status.unNRF905SendFrameCNT + 1) % 2 ^ 32 ∧
      (nRF905SendFrame env pReadBuff nBuffLen d).2.tNRF905Status.unNRF905RecvFrameCNT
        = d.tNRF905Status.unNRF905RecvFrameCNT ∧
      (nRF905SendFrame env pReadBuff nBuffLen d).2.tNRF905Status.unNRF905HoppingCNT
        = d.tNRF905Status.unNRF905HoppingCNT) ∧
    (∀ d', roamNRF905 env d = some d' →
      d'.tNRF905Status.unNRF905SendFrameCNT = d.tNRF905Status.unNRF905SendFrameCNT ∧
      d'.tNRF905Status.unNRF905RecvFrameCNT = d.tNRF905Status.unNRF905RecvFrameCNT) ∧
    ((dataReadyHandler env d).tNRF905Status.unNRF905SendFrameCNT
        = d.tNRF905Status.unNRF905SendFrameCNT ∧
      (dataReadyHandler env d).tNRF905Status.unNRF905RecvFrameCNT
        = d.tNRF905Status.unNRF905RecvFrameCNT) ∧
    (∀ m, (setNRF905Mode m d).2.tNRF905Status.unNRF905SendFrameCNT
        = d.tNRF905Status.unNRF905SendFrameCNT ∧
      (setNRF905Mode m d).2.tNRF905Status.unNRF905RecvFrameCNT
        = d.tNRF905Status.unNRF905RecvFrameCNT) :=
  ⟨nRF905SendFrame_counters env pReadBuff nBuffLen d,
   fun d' h => roamNRF905_counters env d d' h,
   ⟨(frame_dataReadyHandler env d).send, (frame_dataReadyHandler env d).recv⟩,
   fun m => ⟨(frame_setNRF905Mode m d).send, (frame_setNRF905Mode m d).recv⟩⟩

/-- Counterexample to C13 as stated: a send with length 0, whose payload write
fails with -1, still raises `sentFrameCount` from 0 to 1; and a send from a
state whose `sentFrameCount` is `2 ^ 32 - 1` leaves it at 0, a decrease. -/
theorem frame_counters_counterexample :
    (writeTxPayload (constEnv 0 0) [] 0
      (setNRF905Mode NRF905_MODE_STD_BY Driver.init).2).1 = -1 ∧
    Driver.init.tNRF905Status.unNRF905SendFrameCNT = 0 ∧
    (nRF905SendFrame (constEnv 0 0) [] 0 Driver.init).2.tNRF905Status.unNRF905SendFrameCNT
      = 1 ∧
    (nRF905SendFrame (constEnv 0 0) [7] 1
      { Driver.init with
        tNRF905Status := { Driver.init.tNRF905Status with
          unNRF905SendFrameCNT := 2 ^ 32 - 1 } }).2.tNRF905Status.unNRF905SendFrameCNT
      = 0 := by
  decide

/-- C14 (as amended): `nRF905SendFrame` returns 0 in every case, whether or not
the TX payload write succeeded (the result of `writeTxPayload` is discarded),
and it ends in BurstTransmit. -/
theorem nRF905SendFrame_result (env : Env) (d : Driver) (pReadBuff : List Nat)
    (nBuffLen : Int) :
    (nRF905SendFrame env pReadBuff nBuffLen d).1 = 0 ∧
    (nRF905SendFrame env pReadBuff nBuffLen d).2.tNRF905Status.tNRF905CurrentMode
      = NRF905_MODE_BURST_TX :=
  ⟨rfl, mode_setNRF905Mode NRF905_MODE_BURST_TX _ (by decide)⟩

/-- Counterexample to C14 as stated: with length 0 the payload write fails with
-1, and with a bus that reports -1 the one-byte payload write fails with -1;
`nRF905SendFrame` returns 0 both times. -/
theorem nRF905SendFrame_result_counterexample :
    (writeTxPayload (constEnv 0 0) [] 0
      (setNRF905Mode NRF905_MODE_STD_BY Driver.init).2).1 = -1 ∧
    (nRF905SendFrame (constEnv 0 0) [] 0 Driver.init).1 = 0 ∧
    (writeTxPayload (constEnv (-1) 0) [7] 1
      (setNRF905Mode NRF905_MODE_STD_BY Driver.init).2).1 = -1 ∧
    (nRF905SendFrame (constEnv (-1) 0) [7] 1 Driver.init).1 = 0 := by
  decide

/-- Witness for C13: a one-byte send from `roamStart` (send counter 0) counts 1,
and a roam from `roamStart` returns and keeps the send counter. -/
theorem frame_counters_witness :
    (nRF905SendFrame (constEnv 0 0) [7] 1 roamStart).2.tNRF905Status.unNRF905SendFrameCNT
      = 1 ∧
    ∃ d', roamNRF905 (constEnv 0 0) roamStart = some d' ∧
      d'.tNRF905Status.unNRF905SendFrameCNT = roamStart.tNRF905Status.unNRF905SendFrameCNT :=
  ⟨(frame_counters (constEnv 0 0) roamStart [7] 1).1.1,
   (roamNRF905_step (constEnv 0 0) roamStart 3 1 rfl rfl rfl (by decide)).elim
     fun d' h => ⟨d', h.1, ((frame_counters (constEnv 0 0) roamStart [7] 1).2.1 d' h.1).1⟩⟩

/-- C17: the status record starts with `receivedFrameCount`, `sentFrameCount` and
`hopCount` all 0 and mode PowerDown; and when the bus setup succeeds,
`nRF905Initial(channel, speed, power)` called in the initial state returns 0
for any arguments, the recorded mode is then Standby, and
`getNRF905StatusSendFrameCNT()` returns 0. -/
theorem nRF905Initial_from_start (env : Env) (nSPI_Channel nSPI_Speed : Int) (unPower : Nat)
    (hs : ∀ hw, 0 ≤ env.spiSetup hw nSPI_Channel nSPI_Speed) :
    (Driver.init.tNRF905Status.unNRF905RecvFrameCNT = 0 ∧
      Driver.init.tNRF905Status.unNRF905SendFrameCNT = 0 ∧
      Driver.init.tNRF905Status.unNRF905HoppingCNT = 0 ∧
      Driver.init.tNRF905Status.tNRF905CurrentMode = NRF905_MODE_PWR_DOWN) ∧
    (nRF905Initial env nSPI_Channel nSPI_Speed unPower Driver.init).1 = 0 ∧
    (nRF905Initial env nSPI_Channel nSPI_Speed unPower
      Driver.init).2.tNRF905Status.tNRF905CurrentMode = NRF905_MODE_STD_BY ∧
    getNRF905StatusSendFrameCNT
      (nRF905Initial env nSPI_Channel nSPI_Speed unPower Driver.init).2 = 0 := by
  have h := nRF905Initial_ok env nSPI_Channel nSPI_Speed unPower Driver.init hs
  exact ⟨⟨rfl, rfl, rfl, rfl⟩, h.1, h.2.1, h.2.2⟩

/-- Witness for C17: `nRF905Initial(0, 1000000, 5)` with a bus setup that returns
the descriptor 3. -/
theorem nRF905Initial_from_start_witness :
    (nRF905Initial (constEnv 0 0) 0 1000000 5 Driver.init).1 = 0 ∧
    (nRF905Initial (constEnv 0 0) 0 1000000 5
      Driver.init).2.tNRF905Status.tNRF905CurrentMode = NRF905_MODE_STD_BY ∧
    getNRF905StatusSendFrameCNT (nRF905Initial (constEnv 0 0) 0 1000000 5 Driver.init).2
      = 0 :=
  (nRF905Initial_from_start (constEnv 0 0) 0 1000000 5
    (fun _ => (by decide : (0 : Int) ≤ 3))).2

/-- C11: for every valid starting mode `m`, each register access other than
fast-config (`readStatusReg`, `readRxPayload`, `readConfig`, `writeConfig`,
`writeTxPayload`, `writeTxAddr`, `writeRxAddr`), called with a valid length
(and, for the writes, with the buffer allocation succeeding), leaves the state
of `standbyTransfer`: Standby is entered, the one bus transfer is made in a
state whose recorded mode is Standby, and mode `m` is set again. On return the
recorded mode is `m` for every length and every bus result. -/
theorem register_access_in_standby (env : Env) (d : Driver) (m : nRF905Mode_t)
    (hm : m < NRF905_MODE_MAX) (hd : d.tNRF905Status.tNRF905CurrentMode = m) :
    ((setNRF905Mode NRF905_MODE_STD_BY d).2.tNRF905Status.tNRF905CurrentMode
        = NRF905_MODE_STD_BY ∧
      ∀ data, (standbyTransfer env data m d).tNRF905Status.tNRF905CurrentMode = m) ∧
    (ViaStandby env m d (readStatusReg env d).2 ∧
      (∀ pBuff n, n > 0 ∧ n < 33 → ViaStandby env m d (readRxPayload env pBuff n d).2.2) ∧
      (∀ a pBuff n, n > 0 ∧ n < 33 → ViaStandby env m d (readConfig env a pBuff n d).2.2) ∧
      (∀ a pBuff n, n > 0 → env.malloc d.hw (n + 1).toNat = true →
        ViaStandby env m d (writeConfig env a pBuff n d).2) ∧
      (∀ pBuff n, n > 0 → env.malloc d.hw (n + 1).toNat = true →
        ViaStandby env m d (writeTxPayload env pBuff n d).2) ∧
      (∀ a, env.malloc d.hw 5 = true → ViaStandby env m d (writeTxAddr env a d).2) ∧
      (∀ a, env.malloc d.hw 5 = true → ViaStandby env m d (writeRxAddr env a d).2)) ∧
    ((readStatusReg env d).2.tNRF905Status.tNRF905CurrentMode = m ∧
      (∀ pBuff n, (readRxPayload env pBuff n d).2.2.tNRF905Status.tNRF905CurrentMode = m) ∧
      (∀ a pBuff n, (readConfig env a pBuff n d).2.2.tNRF905Status.tNRF905CurrentMode = m) ∧
      (∀ a pBuff n, (writeConfig env a pBuff n d).2.tNRF905Status.tNRF905CurrentMode = m) ∧
      (∀ pBuff n, (writeTxPayload env pBuff n d).2.tNRF905Status.tNRF905CurrentMode = m) ∧
      (∀ a, (writeTxAddr env a d).2.tNRF905Status.tNRF905CurrentMode = m) ∧
      (∀ a, (writeRxAddr env a d).2.tNRF905Status.tNRF905CurrentMode = m)) := by
  subst hd
  refine ⟨⟨mode_setNRF905Mode _ d (by decide), fun data => mode_setNRF905Mode _ _ hm⟩,
    ⟨viaStandby_readStatusReg env d,
      fun p n hn => viaStandby_readRxPayload env p n d hn,
      fun a p n hn => viaStandby_readConfig env a p n d hn,
      fun a p n hn hmal => viaStandby_nRF905SPI_WR_CMD env _ p n d hn hmal,
      fun p n hn hmal => viaStandby_nRF905SPI_WR_CMD env _ p n d hn hmal,
      fun a hmal => viaStandby_nRF905SPI_WR_CMD env _ _ 4 d (by decide) hmal,
      fun a hmal => viaStandby_nRF905SPI_WR_CMD env _ _ 4 d (by decide) hmal⟩,
    ⟨mode_readStatusReg env d hm,
      fun p n => mode_readRxPayload env p n d hm,
      fun a p n => mode_readConfig env a p n d hm,
      fun a p n => mode_nRF905SPI_WR_CMD env _ p n d hm,
      fun p n => mode_nRF905SPI_WR_CMD env _ p n d hm,
      fun a => mode_nRF905SPI_WR_CMD env _ _ 4 d hm,
      fun a => mode_nRF905SPI_WR_CMD env _ _ 4 d hm⟩⟩

/-- Witness for C11: in BurstReceive, with a bus that reports -1 on every
transfer, the status read and the TX-address write go through Standby and
return in BurstReceive. -/
theorem register_access_in_standby_witness :
    ViaStandby (constEnv (-1) 0) NRF905_MODE_BURST_RX (Driver.inMode NRF905_MODE_BURST_RX)
      (readStatusReg (constEnv (-1) 0) (Driver.inMode NRF905_MODE_BURST_RX)).2 ∧
    (readStatusReg (constEnv (-1) 0)
      (Driver.inMode NRF905_MODE_BURST_RX)).2.tNRF905Status.tNRF905CurrentMode
      = NRF905_MODE_BURST_RX ∧
    (writeTxAddr (constEnv (-1) 0) 0x87654321
      (Driver.inMode NRF905_MODE_BURST_RX)).2.tNRF905Status.tNRF905CurrentMode
      = NRF905_MODE_BURST_RX :=
  have h := register_access_in_standby (constEnv (-1) 0) (Driver.inMode NRF905_MODE_BURST_RX)
    NRF905_MODE_BURST_RX (by decide) rfl
  ⟨h.2.1.1, h.2.2.1, h.2.2.2.2.2.2.2.1 0x87654321⟩

/-- C19: in every state reachable from the initial state by any sequence of
driver operations, once at least one pin write has occurred, the levels last
written to the power-up, chip-enable and tx-enable pins are the pin triple of
the recorded current mode; and the pin-level table has one row per mode, the
four rows pairwise different. -/
theorem pins_follow_mode (d : Driver) (hr : Reachable d) (hw : pinWrites d.hw ≠ []) :
    PinsShow d.tNRF905Status.tNRF905CurrentMode d.hw ∧
    unNRF905MODE_PIN_LEVEL.length = NRF905_MODE_MAX ∧
    unNRF905MODE_PIN_LEVEL.Nodup := by
  refine ⟨?_, rfl, by decide⟩
  rcases pinsAgree_of_reachable hr with h | h
  · exact absurd h hw
  · exact h

/-- Witness for C19: after `nRF905Initial(0, 1000000, 5)` and a one-byte
`nRF905SendFrame` the recorded mode is BurstTransmit and the pins show it. -/
theorem pins_follow_mode_witness :
    PinsShow NRF905_MODE_BURST_TX
      (nRF905SendFrame (constEnv 0 0) [7] 1
        (nRF905Initial (constEnv 0 0) 0 1000000 5 Driver.init).2).2.hw :=
  (pins_follow_mode
    (nRF905SendFrame (constEnv 0 0) [7] 1
      (nRF905Initial (constEnv 0 0) 0 1000000 5 Driver.init).2).2
    (Reachable.sendFrame (constEnv 0 0) [7] 1
      (Reachable.initial (constEnv 0 0) 0 1000000 5 Reachable.start))
    (by decide)).1

/-- C21 (what the code does): `nRF905StartListen` installs the new table and
length but never writes the roaming index; so after
`nRF905StartListen([3, 17, 42], 3)`, two roams and `nRF905StartListen([9], 1)`,
all of which succeed, the roaming index is 2 while the installed table has
length 1, and the next `roamNRF905` reads `pRoamingTable[2]`, outside the table. -/
theorem relisten_index_outside_table :
    (∀ (env : Env) (t : List Nat) (n : Int) (d : Driver),
      (nRF905StartListen env t n d).2.nHoppingPoint = d.nHoppingPoint) ∧
    (nRF905StartListen (constEnv 0 0) [3, 17, 42] 3 Driver.init).1 = 0 ∧
    ((roamNRF905 (constEnv 0 0)
        (nRF905StartListen (constEnv 0 0) [3, 17, 42] 3 Driver.init).2).bind
      (roamNRF905 (constEnv 0 0))).map
      (fun d => (nRF905StartListen (constEnv 0 0) [9] 1 d).1) = some 0 ∧
    relistenRun.map (fun d => (d.nHoppingPoint, d.pRoamingTable, d.nRoamingTableLen))
      = some (2, [9], 1) ∧
    relistenRun.map (fun d => decide (d.nHoppingPoint < (d.pRoamingTable.length : Int)))
      = some false ∧
    relistenRun.map (fun d => readTable d.pRoamingTable d.nHoppingPoint) = some none ∧
    relistenRun.map (fun d => roamNRF905 (constEnv 0 0) d) = some none :=
  ⟨hopping_nRF905StartListen, by decide, by decide, by decide, by decide, by decide,
    by decide⟩

end NRF905
